import Mathlib

/-!
# sensor_exporter: a shallow embedding of the scraper orchestration

Go strings are modelled by `String` (text is taken to be well-formed UTF-8; every
separator the program splits on is an ASCII character, so splitting by characters
and by bytes agree).  A Go `error` is modelled by its message, `nil` by `none`.
A run-time panic (index out of range) is modelled by the result `none` of an
`Option`-valued function.  The mutexes of `Scraper` are left out: the development
is about single steps of the program (one tick, one request, one binding), taken
one at a time.
-/

set_option autoImplicit false
set_option linter.dupNamespace false

/-! ## Library functions of Go used by the sources -/

namespace Go

/-- Pieces of a text between the occurrences of the separator `c`. -/
def splitChars (c : Char) : List Char → List (List Char)
  | [] => [[]]
  | x :: xs =>
    if x = c then [] :: splitChars c xs
    else
      match splitChars c xs with
      | [] => [[x]]
      | f :: fs => (x :: f) :: fs

/-- Model of `strings.Split(s, sep)` for a one-character separator. -/
def Split (s : String) (sep : Char) : List String :=
  (splitChars sep s.data).map String.mk

/-- Text before and after the first occurrence of `c`, when there is one. -/
def cutChars (c : Char) : List Char → Option (List Char × List Char)
  | [] => none
  | x :: xs =>
    if x = c then some ([], xs)
    else
      match cutChars c xs with
      | some (a, b) => some (x :: a, b)
      | none => none

/-- At most `n` pieces: the last piece is the unsplit remainder. -/
def splitNChars (c : Char) : Nat → List Char → List (List Char)
  | 0, _ => []
  | 1, s => [s]
  | n + 2, s =>
    match cutChars c s with
    | none => [s]
    | some (a, b) => a :: splitNChars c (n + 1) b

/-- Model of `strings.SplitN(s, sep, n)` for a one-character separator and `n ≥ 0`. -/
def SplitN (s : String) (sep : Char) (n : Nat) : List String :=
  (splitNChars sep n s.data).map String.mk

/-- Model of `strings.TrimLeft(s, cutset)` for a one-character cutset: every leading
occurrence of the character is removed. -/
def TrimLeft (s : String) (c : Char) : String :=
  String.mk (s.data.dropWhile (fun x => x == c))

/-- A text without its last character when that character is `c`. -/
def trimLastChar (c : Char) : List Char → List Char
  | [] => []
  | [x] => if x = c then [] else [x]
  | x :: y :: r => x :: trimLastChar c (y :: r)

/-- Model of `strings.TrimSuffix(s, suffix)` for a one-character suffix. -/
def TrimSuffix (s : String) (c : Char) : String :=
  String.mk (trimLastChar c s.data)

/-- The rest of `l` after the literal `lit`, when `l` starts with it. -/
def dropLit : List Char → List Char → Option (List Char)
  | [], l => some l
  | _ :: _, [] => none
  | a :: as, x :: xs => if a = x then dropLit as xs else none

/-- The operations on `float64` values the sensors use.  They are library code
(`strconv.ParseFloat`, IEEE arithmetic, the `%.Nf` verb of `fmt`), taken as given. -/
structure Float64Ops (F : Type) where
  /-- Model of `strconv.ParseFloat(s, 64)`: the value, or the error message. -/
  ParseFloat : String → Except String F
  /-- Subtraction. -/
  sub : F → F → F
  /-- Division. -/
  div : F → F → F
  /-- The constant `32`. -/
  c32 : F
  /-- The constant `1.8`. -/
  c1_8 : F
  /-- The constant `1000`. -/
  c1000 : F
  /-- Model of `fmt.Sprintf("%.Nf", x)` for precision `N`. -/
  format : Nat → F → String

end Go

/-! ## The environment and the package-level variables -/

/-- What the outside world answers during one call of a sensor. -/
structure Env where
  /-- Outcome of `net.DialTimeout("tcp", addr, timeOut)` followed by
  `bufio.NewReader(conn).ReadString('\n')`: `none` when the dial returns an error,
  otherwise the text read from the connection. -/
  dial : String → Option String
  /-- Outcome of `ioutil.ReadFile(path)`: the contents, or the error message. -/
  readFile : String → Except String String
  /-- Paths visited, in order, by `filepath.Walk("/sys/devices/platform/", ...)`. -/
  walk : List String

/-! ## Package sensor_coretemp: package-level variables -/

namespace sensor_coretemp

/-- Package-level variables of `sensor_coretemp`. -/
structure Vars where
  initialized : Bool
  cpuTempFiles : List String
  cpuLabelFiles : List String
  cpuLabel : List String
  numOfInputs : Nat
  deriving DecidableEq, Repr

/-- Values of the package-level variables when the program starts. -/
def Vars.init : Vars :=
  { initialized := false, cpuTempFiles := [], cpuLabelFiles := [], cpuLabel := [],
    numOfInputs := 0 }

end sensor_coretemp

/-- Package-level variables of the sensor packages (everything `package main` does not own). -/
structure Globals where
  /-- Variable `sensor.incidents`, a `uint64`. -/
  incidents : Nat
  /-- Variables of `sensor_coretemp`. -/
  coretemp : sensor_coretemp.Vars
  /-- Variable `sensor_log.initialized`. -/
  logInitialized : Bool
  deriving DecidableEq, Repr

/-- Values of the package-level variables when the program starts. -/
def Globals.init : Globals :=
  { incidents := 0, coretemp := sensor_coretemp.Vars.init, logInitialized := false }

/-! ## Package sensor -/

namespace sensor

/-- Result of one `Scrape()` call: `none` when the call panics, otherwise the returned
pair `(out, err)` and the package-level variables after the call. -/
abbrev ScrapeResult := Option ((String × Option String) × Globals)

/-- Interface `Collector`: anything with a `Scrape() (string, error)` method. -/
structure Collector where
  Scrape : Env → Globals → ScrapeResult

/-- Result of one factory call `New(opts)`: `none` when the call panics, otherwise the
returned collector or error and the package-level variables after the call. -/
abbrev NewResult := Option (Except String Collector × Globals)

/-- Struct `CollectorEntry`. -/
structure CollectorEntry where
  New : String → Env → Globals → NewResult
  DefaultInterval : Int
  /-- Field `Type` (a reserved word in Lean). -/
  Type_ : List String
  Help : List String
  Description : String

/-- Function `Incident`: `atomic.AddUint64(&incidents, 1)`. -/
def Incident (g : Globals) : Globals :=
  { g with incidents := (g.incidents + 1) % 2 ^ 64 }

/-- Function `GetIncident`: `atomic.LoadUint64(&incidents)`. -/
def GetIncident (g : Globals) : Nat :=
  g.incidents

end sensor

/-! ## Package sensor_hddtemp -/

namespace sensor_hddtemp

/-- Struct `Sensor`. -/
structure Sensor where
  Url : String
  Host : String
  deriving DecidableEq, Repr

/-- Split of a text at its last colon. -/
def cutLastColon : List Char → Option (List Char × List Char)
  | [] => none
  | x :: xs =>
    match cutLastColon xs with
    | some (a, b) => some (x :: a, b)
    | none => if x = ':' then some ([], xs) else none

/-- Model of `hostRe.FindStringSubmatch(opts)` for `hostRe = ^(.*):[^:]*$`: the whole
match and group 1, or the nil slice when there is no match.  The class `[^:]*` up to
the end of the text forces the colon to be the last one; `.` does not match a line
feed, so the text before that colon must be free of line feeds. -/
def hostReFindStringSubmatch (opts : String) : List String :=
  match cutLastColon opts.data with
  | none => []
  | some (a, _) => if '\n' ∈ a then [] else [opts, String.mk a]

/-- Function `NewSensor`.  The dial only decides what is logged. -/
def NewSensor (_env : Env) (opts : String) : Option (Except String Sensor) :=
  let host := hostReFindStringSubmatch opts
  match host[1]? with
  | none => none
  | some h => some (.ok { Url := opts, Host := h })

/-- One repetition `\|[^\|]*` of the record regexp: a bar and the bar-free text after
it, with the rest of the input. -/
def reField : List Char → Option (List Char × List Char)
  | [] => none
  | x :: xs =>
    if x = '|' then
      some ('|' :: xs.takeWhile (fun c => c != '|'), xs.dropWhile (fun c => c != '|'))
    else none

/-- The end `\|[CF*]` of the record regexp. -/
def reUnit : List Char → Option (List Char)
  | x :: d :: _ =>
    if x = '|' ∧ (d = 'C' ∨ d = 'F' ∨ d = '*') then some [x, d] else none
  | _ => none

/-- The match of `re = (\|[^\|]*){3,3}\|[CF*]` that starts at the head of the input.
A repetition must be followed by a bar, so the greedy class takes the whole bar-free
run and the match is unique. -/
def reMatchAt (l : List Char) : Option (List Char) :=
  match reField l with
  | none => none
  | some (f1, r1) =>
    match reField r1 with
    | none => none
    | some (f2, r2) =>
      match reField r2 with
      | none => none
      | some (f3, r3) =>
        match reUnit r3 with
        | none => none
        | some u => some (f1 ++ f2 ++ f3 ++ u)

/-- Successive non-overlapping leftmost matches of `re`; `skip` counts the characters
of the last match that are still to be passed over. -/
def reFindAllFrom : Nat → List Char → List (List Char)
  | _, [] => []
  | skip + 1, _ :: xs => reFindAllFrom skip xs
  | 0, x :: xs =>
    match reMatchAt (x :: xs) with
    | some m => m :: reFindAllFrom (m.length - 1) xs
    | none => reFindAllFrom 0 xs

/-- Model of `re.FindAllString(s, -1)`. -/
def reFindAllString (s : String) : List String :=
  (reFindAllFrom 0 s.data).map String.mk

/-- Body of the loop of `Scrape` for one match `v`, with the output and the
package-level variables so far; `none` is an index out of range. -/
def scrapeRecord {F : Type} (fl : Go.Float64Ops F) (s : Sensor) (v : String)
    (acc : String × Globals) : Option (String × Globals) :=
  let v := Go.TrimLeft v '|'
  let v2 := Go.Split v '|'
  match v2[0]?, v2[1]?, v2[3]? with
  | some device, some model, some degrees =>
    if degrees ≠ "*" then
      match v2[2]? with
      | none => none
      | some t =>
        match fl.ParseFloat t with
        | .error _ => some (acc.1, sensor.Incident acc.2)
        | .ok temp =>
          let temp := if degrees = "F" then fl.div (fl.sub temp fl.c32) fl.c1_8 else temp
          some (acc.1 ++ ("hdd_temperature_celsius\x7bhost=\"" ++ s.Host ++ "\",disk=\""
            ++ device ++ "\",model=\"" ++ model ++ "\"\x7d " ++ fl.format 0 temp ++ "\n"),
            acc.2)
    else some acc
  | _, _, _ => none

/-- The loop of `Scrape` over the matches. -/
def scrapeRecords {F : Type} (fl : Go.Float64Ops F) (s : Sensor) :
    List String → String × Globals → Option (String × Globals)
  | [], acc => some acc
  | v :: vs, acc =>
    match scrapeRecord fl s v acc with
    | none => none
    | some acc1 => scrapeRecords fl s vs acc1

/-- Method `Scrape`.  The package-level variables `device`, `model`, `degrees` and
`temp` are written before they are read in each repetition, so they are locals here. -/
def Scrape {F : Type} (fl : Go.Float64Ops F) (s : Sensor) (env : Env) (g : Globals) :
    sensor.ScrapeResult :=
  match env.dial s.Url with
  | none => some (("", none), sensor.Incident g)
  | some reader =>
    match scrapeRecords fl s (reFindAllString reader) ("", g) with
    | none => none
    | some (out, g1) => some ((out, none), g1)

/-- The sensor as a value of the interface `Collector`. -/
def collector {F : Type} (fl : Go.Float64Ops F) (s : Sensor) : sensor.Collector :=
  { Scrape := Scrape fl s }

/-- Factory registered by `init`, as stored in the registry. -/
def New {F : Type} (fl : Go.Float64Ops F) (opts : String) (env : Env) (g : Globals) :
    sensor.NewResult :=
  match NewSensor env opts with
  | none => none
  | some (.error e) => some (.error e, g)
  | some (.ok s) => some (.ok (collector fl s), g)

/-- Variable `suggestedScrapeInterval`: 4800 ms, in nanoseconds. -/
def suggestedScrapeInterval : Int := 4800 * 1000000

/-- Entry registered by `init` under the name `hddtemp`. -/
def entry {F : Type} (fl : Go.Float64Ops F) : sensor.CollectorEntry :=
  { New := New fl
    DefaultInterval := suggestedScrapeInterval
    Type_ := ["# TYPE hdd_temperature_celsius gauge"]
    Help := ["# HELP hdd_temperature_celsius Current temperature of the disk."]
    Description := "Hddtemp reads and exposes disk temperatures from a hddtemp daemon. Its options\nis the URL of the daemon. Example setup with default scrape interval:\n\n  sensor_exporter hddtemp,,localhost:7634" }

end sensor_hddtemp

/-! ## Package sensor_coretemp -/

namespace sensor_coretemp

/-- Struct `Sensor`. -/
structure Sensor where
  deriving DecidableEq, Repr

/-- The rest of a text after its leading decimal digits, when there is at least one. -/
def dropDigits1 (l : List Char) : Option (List Char) :=
  if (l.takeWhile Char.isDigit).isEmpty then none else some (l.dropWhile Char.isDigit)

/-- Whether `temp[0-9]+` followed by the literal `tail` starts at the head of the text. -/
def matchTemp (tail : List Char) (l : List Char) : Bool :=
  match Go.dropLit "temp".data l with
  | none => false
  | some r =>
    match dropDigits1 r with
    | none => false
    | some r1 => (Go.dropLit tail r1).isSome

/-- Whether `.*temp[0-9]+` followed by `tail` matches from the head of the text; `.`
does not match a line feed. -/
def matchDotStarTemp (tail : List Char) : List Char → Bool
  | [] => false
  | x :: xs => matchTemp tail (x :: xs) || (x != '\n' && matchDotStarTemp tail xs)

/-- Whether `coretemp.*temp([0-9]+)` followed by `tail` matches somewhere in the text. -/
def matchCoretemp (tail : List Char) : List Char → Bool
  | [] => false
  | x :: xs =>
    (match Go.dropLit "coretemp".data (x :: xs) with
      | none => false
      | some r => matchDotStarTemp tail r) || matchCoretemp tail xs

/-- Model of `inputs.MatchString(path)` for `coretemp.*temp([0-9]+)_input`. -/
def inputsMatchString (path : String) : Bool :=
  matchCoretemp "_input".data path.data

/-- Model of `labels.MatchString(path)` for `coretemp.*temp([0-9]+)_label`. -/
def labelsMatchString (path : String) : Bool :=
  matchCoretemp "_label".data path.data

/-- Closure `matchSensorFiles` of `detectCoreTempSensors`, for one visited path. -/
def matchSensorFiles (v : Vars) (path : String) : Vars :=
  if inputsMatchString path then { v with cpuTempFiles := v.cpuTempFiles ++ [path] }
  else if labelsMatchString path then { v with cpuLabelFiles := v.cpuLabelFiles ++ [path] }
  else v

/-- The loop of `detectCoreTempSensors` that reads the label files: the error of the
first read that fails, if any, and the variables at that point. -/
def readLabels (env : Env) : List String → Vars → Option String × Vars
  | [], v => (none, v)
  | file :: files, v =>
    match env.readFile file with
    | .error e => (some e, v)
    | .ok dat => readLabels env files { v with cpuLabel := v.cpuLabel ++ [Go.TrimSuffix dat '\n'] }

/-- Function `detectCoreTempSensors`: the returned error (`none` for nil) and the
package-level variables after the call. -/
def detectCoreTempSensors (env : Env) (v : Vars) : Option String × Vars :=
  let v1 := env.walk.foldl matchSensorFiles v
  readLabels env v1.cpuLabelFiles v1

/-- Function `NewSensor`. -/
def NewSensor (env : Env) (_opts : String) (v : Vars) : Except String Sensor × Vars :=
  if v.initialized = true then
    (.error "Coretemp sensor may only be used once per instance.", v)
  else
    match detectCoreTempSensors env v with
    | (some err, v1) => (.error ("Coretemp could not initialize sensors: " ++ err), v1)
    | (none, v1) =>
      let v2 := { v1 with numOfInputs := v1.cpuTempFiles.length }
      if v2.numOfInputs = 0 then (.error "Coretemp could not find any sensors.", v2)
      else (.ok {}, v2)

/-- The loop of `Scrape` from index `k` on: `none` is an index out of range of
`cpuLabel`, otherwise the returned pair. -/
def scrapeFiles {F : Type} (fl : Go.Float64Ops F) (env : Env) (cpuLabel : List String) :
    Nat → List String → String → Option (String × Option String)
  | _, [], out => some (out, none)
  | k, file :: files, out =>
    match env.readFile file with
    | .error e => some ("", some ("Coretemp could not scrape: " ++ e))
    | .ok dat =>
      match fl.ParseFloat (Go.TrimSuffix dat '\n') with
      | .error e => some ("", some ("Coretemp could not scrape: " ++ e))
      | .ok value =>
        match cpuLabel[k]? with
        | none => none
        | some label =>
          scrapeFiles fl env cpuLabel (k + 1) files
            (out ++ ("cpu_temperature_celsius\x7bsensor=\"" ++ label ++ "\"\x7d "
              ++ fl.format 1 (fl.div value fl.c1000) ++ "\n"))

/-- Method `Scrape`. -/
def Scrape {F : Type} (fl : Go.Float64Ops F) (_s : Sensor) (env : Env) (g : Globals) :
    sensor.ScrapeResult :=
  match scrapeFiles fl env g.coretemp.cpuLabel 0 g.coretemp.cpuTempFiles "" with
  | none => none
  | some r => some (r, g)

/-- The sensor as a value of the interface `Collector`. -/
def collector {F : Type} (fl : Go.Float64Ops F) (s : Sensor) : sensor.Collector :=
  { Scrape := Scrape fl s }

end sensor_coretemp

/-! ## Package sensor_log -/

namespace sensor_log

/-- Struct `Sensor`. -/
structure Sensor where
  deriving DecidableEq, Repr

/-- Function `NewSensor`, on the package-level variable `initialized`. -/
def NewSensor (_opts : String) (initialized : Bool) : Except String Sensor × Bool :=
  if initialized = true then (.error "Only one log sensor may be set.", initialized)
  else (.ok {}, true)

end sensor_log

/-! ## Package sensor_upsc -/

namespace sensor_upsc

/-- Struct `Sensor`; `R` is the type of compiled regular expressions. -/
structure Sensor (R : Type) where
  Labels : String
  Host : String
  Ups : String
  Re : R
  BeginToken : String
  EndToken : String
  deriving DecidableEq, Repr

/-- Function `NewSensor`; `Compile` is `regexp.Compile` (the compiled expression, or the
error message).  The dial only decides what is logged.  The variables `labels`, `host`
and `ups` start as empty strings. -/
def NewSensor {R : Type} (Compile : String → Except String R) (_env : Env) (opts : String) :
    Except String (Sensor R) :=
  let conf := Go.Split opts '@'
  let r : Except String (String × String × String) :=
    match conf with
    | [c0, c1] =>
      let ups := c0
      let host := c1
      let hostParts := Go.Split host ':'
      let host := if hostParts.length = 1 then host ++ ":3493" else host
      .ok ("\x7bups=\"" ++ ups ++ "\",host=\"" ++ hostParts.headD "" ++ "\"\x7d", host, ups)
    | [c0] => .ok ("\x7bups=\"" ++ c0 ++ "\"\x7d", "localhost:3493", "")
    | _ =>
      .error ("Upsc, could not understand UPS URI. Empty or too many \x27@\x27?. Opts: " ++ opts)
  match r with
  | .error e => .error e
  | .ok (labels, host, ups) =>
    let reString := "VAR " ++ ups ++ " ([a-zA-Z.]*) \"(.*)\""
    match Compile reString with
    | .error err =>
      .error ("Upsc, could not compile regural expression: " ++ reString ++ ". Err: " ++ err)
    | .ok re =>
      .ok { Labels := labels, Host := host, Ups := ups, Re := re,
            BeginToken := "BEGIN LIST VAR " ++ ups ++ "\n",
            EndToken := "END LIST VAR " ++ ups ++ "\n" }

end sensor_upsc

/-! ## Package main -/

namespace main

/-- Struct `Scraper`, without its mutex. -/
structure Scraper where
  Collector : sensor.Collector
  Interval : Int
  /-- Field `Type` (a reserved word in Lean). -/
  Type_ : String
  Value : String

/-- State of the program: the variables `scrapers` and `supportTexts` of `package main`
and the package-level variables of the sensor packages.  The map `supportTexts` only
ever stores the value `true`; it is kept as the list of its keys, without repetition. -/
structure State where
  scrapers : List Scraper
  supportTexts : List String
  pkg : Globals

/-- State when the program starts. -/
def State.init : State :=
  { scrapers := [], supportTexts := [], pkg := Globals.init }

/-- Variable `defaultInterval`: 4800 ms, in nanoseconds. -/
def defaultInterval : Int := 4800 * 1000000

/-- Assignment `supportTexts[k] = true`. -/
def mapSet (m : List String) (k : String) : List String :=
  if k ∈ m then m else m ++ [k]

/-- The orders in which `for k, _ := range supportTexts` may visit the keys: every key
once, in an order the language leaves unspecified and may change between two loops. -/
def RangeOrder (m : List String) (order : List String) : Prop :=
  order.Perm m

/-- One pass of the `select` loop of `startSensor` for the scraper `s`: a tick has
arrived.  The result is `none` when `Scrape` panics. -/
def startSensorTick (env : Env) (s : Scraper) (g : Globals) : Option (Scraper × Globals) :=
  match s.Collector.Scrape env g with
  | none => none
  | some ((value, err), g1) =>
    match err with
    | some _ => some (s, g1)
    | none => some ({ s with Value := value }, g1)

/-- A tick of the goroutine started for the `i`-th bound scraper, on the whole state. -/
def tick (env : Env) (i : Nat) (st : State) : Option State :=
  match st.scrapers[i]? with
  | none => some st
  | some s =>
    match startSensorTick env s st.pkg with
    | none => none
    | some (s1, g1) => some { st with scrapers := st.scrapers.set i s1, pkg := g1 }

/-- Model of `fmt.Fprintln(w, a)` for one string operand: the operand and a line feed
are appended to what was written so far. -/
def Fprintln (w : String) (a : String) : String :=
  w ++ a ++ "\n"

/-- Function `metricsHandler`: the body written and the state after the call.  `order`
is the order in which the `range` loop visits the keys of `supportTexts`. -/
def metricsHandler (order : List String) (st : State) : String × State :=
  let w := order.foldl Fprintln ""
  let w := st.scrapers.foldl (fun w v => Fprintln w v.Value) w
  (w, st)

/-- The loop of `processArg` over `Type`, from index `k` on: `Type[k]` and `Help[k]`
are stored in `supportTexts`; `none` is an index out of range of `Help`. -/
def addSupportTexts (help : List String) : Nat → List String → List String →
    Option (List String)
  | _, [], m => some m
  | k, t :: ts, m =>
    match help[k]? with
    | none => none
    | some h => addSupportTexts help (k + 1) ts (mapSet (mapSet m t) h)

/-- The `case 1` branch of `processArg` and the code after the `switch`, for the type
name `name`, the interval found so far and the options.  `envNew` and `envScrape` are
the environment during the factory call and during the first scrape. -/
def bindSensor (AvailableCollectors : String → Option sensor.CollectorEntry)
    (envNew envScrape : Env) (name : String) (interval : Int) (opts : String) (st : State) :
    Option (Except String Scraper × State) :=
  match AvailableCollectors name with
  | none => some (.error ("Sensor " ++ name ++ " not found"), st)
  | some entry =>
    let interval := if interval = 0 then entry.DefaultInterval else interval
    let interval := if interval = 0 then defaultInterval else interval
    match addSupportTexts entry.Help 0 entry.Type_ st.supportTexts with
    | none => none
    | some texts =>
      match entry.New opts envNew st.pkg with
      | none => none
      | some (.error e, g1) =>
        some (.error ("Could not init sensor: " ++ e), { st with supportTexts := texts, pkg := g1 })
      | some (.ok collector, g1) =>
        match collector.Scrape envScrape g1 with
        | none => none
        | some ((_, some e), g2) =>
          some (.error ("Could not perform first scrape: " ++ e),
            { st with supportTexts := texts, pkg := g2 })
        | some ((value, none), g2) =>
          some (.ok { Collector := collector, Interval := interval, Type_ := name, Value := value },
            { st with supportTexts := texts, pkg := g2 })

/-- The `case 2` branch of `processArg`: the interval field is parsed; an error gives 0. -/
def parseInterval (ParseDuration : String → Except String Int) (field : String) : Int :=
  match ParseDuration field with
  | .error _ => 0
  | .ok d => d

/-- Function `processArg`.  `ParseDuration` is `time.ParseDuration` (nanoseconds, or the
error message).  The result is `none` on a panic, otherwise the returned scraper or
error and the state after the call. -/
def processArg (ParseDuration : String → Except String Int)
    (AvailableCollectors : String → Option sensor.CollectorEntry)
    (envNew envScrape : Env) (arg : String) (st : State) :
    Option (Except String Scraper × State) :=
  match Go.SplitN arg ',' 3 with
  | [c0, c1, c2] =>
    bindSensor AvailableCollectors envNew envScrape c0 (parseInterval ParseDuration c1) c2 st
  | [c0, c1] =>
    bindSensor AvailableCollectors envNew envScrape c0 (parseInterval ParseDuration c1) "" st
  | [c0] => bindSensor AvailableCollectors envNew envScrape c0 0 "" st
  | _ => some (.error "Could not create sensor", st)

end main

/-! ## Values used in the examples -/

namespace Example

/-- Float operations for examples in which no numeral is read: `ParseFloat` rejects
its argument.  No example below reaches a float operation. -/
def noFloat : Go.Float64Ops Unit :=
  { ParseFloat := fun s => .error ("strconv.ParseFloat: parsing " ++ s ++ ": invalid syntax")
    sub := fun _ _ => ()
    div := fun _ _ => ()
    c32 := ()
    c1_8 := ()
    c1000 := ()
    format := fun _ _ => "" }

/-- Values of `time.ParseDuration` on the interval fields the examples use, in
nanoseconds: `"0s"` is zero, `"1s"` and `"2s"` are one and two seconds, `"-1s"` is minus
one second, and the empty field is an error.  Other fields do not occur. -/
def parseDuration (s : String) : Except String Int :=
  if s = "0s" then .ok 0
  else if s = "1s" then .ok 1000000000
  else if s = "2s" then .ok 2000000000
  else if s = "-1s" then .ok (-1000000000)
  else .error ("time: invalid duration " ++ s)

/-- An environment in which no daemon is reachable and no file is readable. -/
def deadEnv : Env :=
  { dial := fun _ => none
    readFile := fun path => .error ("open " ++ path ++ ": no such file or directory")
    walk := [] }

/-- A source whose scrape always succeeds with the snapshot `out`. -/
def constCollector (out : String) : sensor.Collector :=
  { Scrape := fun _ g => some ((out, none), g) }

/-- A source whose scrape succeeds with the text the file `path` holds and returns
the read error otherwise. -/
def fileCollector (path : String) : sensor.Collector :=
  { Scrape := fun env g =>
      match env.readFile path with
      | .ok dat => some ((dat, none), g)
      | .error e => some (("", some e), g) }

/-- A registry with one source type `m` of suggested interval one second, whose
instances always return the snapshot `m{} 1.0`. -/
def registry (name : String) : Option sensor.CollectorEntry :=
  if name = "m" then
    some { New := fun _ _ g => some (.ok (constCollector "m\x7b\x7d 1.0\n"), g)
           DefaultInterval := 1000000000
           Type_ := ["# TYPE m gauge"]
           Help := ["# HELP m A constant."]
           Description := "A constant source." }
  else none

end Example

namespace Example

/-- Successive ticks of the `i`-th scraper, one for each environment of the list. -/
def ticks (i : Nat) : List Env → main.State → Option main.State
  | [], st => some st
  | env :: envs, st =>
    match main.tick env i st with
    | none => none
    | some st1 => ticks i envs st1

/-- An environment in which the file `path` holds `dat` and nothing else is there. -/
def fileEnv (path dat : String) : Env :=
  { dial := fun _ => none
    readFile := fun p =>
      if p = path then .ok dat else .error ("open " ++ p ++ ": no such file or directory")
    walk := [path] }

/-- Path of a temperature file of the coretemp driver. -/
def tempInput : String := "/sys/devices/platform/coretemp.0/hwmon/hwmon1/temp1_input"

/-- Package-level variables after a coretemp sensor with one input was set up. -/
def coretempGlobals : Globals :=
  { Globals.init with
    coretemp :=
      { initialized := false, cpuTempFiles := [tempInput], cpuLabelFiles := [],
        cpuLabel := ["Core 0"], numOfInputs := 1 } }

/-- A state with one bound coretemp task. -/
def coretempState {F : Type} (fl : Go.Float64Ops F) : main.State :=
  { scrapers :=
      [{ Collector := sensor_coretemp.collector fl {}
         Interval := 4800000000
         Type_ := "coretemp"
         Value := "cpu_temperature_celsius\x7bsensor=\"Core 0\"\x7d 45.0\n" }]
    supportTexts := []
    pkg := coretempGlobals }

/-- A scrape task that reads the file `/v`, primed with `1`. -/
def fileScraper : main.Scraper :=
  { Collector := fileCollector "/v", Interval := 1000000000, Type_ := "file", Value := "1" }

/-- A state with the one bound task `fileScraper`. -/
def fileState : main.State :=
  { scrapers := [fileScraper], supportTexts := [], pkg := Globals.init }

/-- A bound hddtemp sensor. -/
def hddSensor : sensor_hddtemp.Sensor :=
  { Url := "localhost:7634", Host := "localhost" }

/-- The scrape task of `hddSensor`, with the snapshot of a successful scrape cached. -/
def hddScraper : main.Scraper :=
  { Collector := sensor_hddtemp.collector noFloat hddSensor
    Interval := 4800000000
    Type_ := "hddtemp"
    Value := "hdd_temperature_celsius\x7bhost=\"localhost\",disk=\"/dev/sda\",model=\"ST500\"\x7d 35\n" }

/-- A state with the one bound task `hddScraper`. -/
def hddState : main.State :=
  { scrapers := [hddScraper]
    supportTexts := ["# TYPE hdd_temperature_celsius gauge",
      "# HELP hdd_temperature_celsius Current temperature of the disk."]
    pkg := Globals.init }

/-- An environment in which the hddtemp daemon answers with the line `reply`. -/
def replyEnv (reply : String) : Env :=
  { dial := fun _ => some reply
    readFile := fun path => .error ("open " ++ path ++ ": no such file or directory")
    walk := [] }

/-- A scrape task with the snapshot `m{} 1.0` cached. -/
def constScraper : main.Scraper :=
  { Collector := constCollector "m\x7b\x7d 1.0\n", Interval := 1000000000, Type_ := "m",
    Value := "m\x7b\x7d 1.0\n" }

/-- A state with the one bound task `constScraper` and no metadata. -/
def constState : main.State :=
  { scrapers := [constScraper], supportTexts := [], pkg := Globals.init }

/-- A registry that holds the entry of the hddtemp sensor. -/
def hddRegistry {F : Type} (fl : Go.Float64Ops F) (name : String) :
    Option sensor.CollectorEntry :=
  if name = "hddtemp" then some (sensor_hddtemp.entry fl) else none

/-- A compiler of regular expressions that accepts every expression and keeps its text. -/
def compileAny (re : String) : Except String String :=
  .ok re

end Example

/-! ## The interval of a bound task, in words -/

namespace Claimed

/-- The interval a source falls back to: its suggested default when that is non-zero,
the global default otherwise. -/
def fallbackInterval (entry : sensor.CollectorEntry) : Int :=
  if entry.DefaultInterval ≠ 0 then entry.DefaultInterval else main.defaultInterval

/-- The interval as the specification words it: the value of the interval field when
the field is present and parses as a duration, the fallback otherwise. -/
def interval (ParseDuration : String → Except String Int) (entry : sensor.CollectorEntry)
    (field : Option String) : Int :=
  match field with
  | none => fallbackInterval entry
  | some f =>
    match ParseDuration f with
    | .ok d => d
    | .error _ => fallbackInterval entry

/-- The interval with the case of a zero duration set apart: the value of the interval
field when the field is present and parses as a duration other than zero, the fallback
otherwise. -/
def intervalNonZero (ParseDuration : String → Except String Int)
    (entry : sensor.CollectorEntry) (field : Option String) : Int :=
  match field with
  | none => fallbackInterval entry
  | some f =>
    match ParseDuration f with
    | .ok d => if d ≠ 0 then d else fallbackInterval entry
    | .error _ => fallbackInterval entry

/-- Lines of a body: each text followed by a line feed, one after the other. -/
def lines (l : List String) : String :=
  String.join (l.map (fun a => a ++ "\n"))

end Claimed

/-! ## Package main: startup -/

namespace Go

/-- Model of the channel returned by `time.Tick(d)`: whether it ever delivers a tick.
`Tick` returns the nil channel when `d <= 0`, and a receive from the nil channel blocks
for ever. -/
def TickDelivers (d : Int) : Bool :=
  decide (0 < d)

end Go

namespace main

/-- Function `startSensor`: a goroutine is started for `s`.  `running` lists the
scrapers for which a goroutine was started so far. -/
def startSensor (s : Scraper) (running : List Scraper) : List Scraper :=
  running ++ [s]

/-- Whether the ticker that the goroutine of `startSensor` creates for `s` ever fires. -/
def tickerFires (s : Scraper) : Bool :=
  Go.TickDelivers s.Interval

/-- How the first loop of `main` ends: with a panic, with `log.Fatalf` (the message and
the state at that point), or with every argument bound. -/
inductive Bound where
  | panic : Bound
  | fatal : String → State → Bound
  | ok : State → Bound

/-- The loop of `main` over `flag.Args()`, from the `k`-th argument on.  `envs k` is the
environment of the `k`-th `processArg` call: during its factory call and during its
first scrape. -/
def bindArgs (ParseDuration : String → Except String Int)
    (AvailableCollectors : String → Option sensor.CollectorEntry) (envs : Nat → Env × Env) :
    Nat → List String → State → Bound
  | _, [], st => .ok st
  | k, v :: vs, st =>
    match processArg ParseDuration AvailableCollectors (envs k).1 (envs k).2 v st with
    | none => .panic
    | some (.error err, st1) => .fatal ("Could not add “" ++ v ++ "”. Err: " ++ err ++ "\n") st1
    | some (.ok scraper, st1) =>
      bindArgs ParseDuration AvailableCollectors envs (k + 1) vs
        { st1 with scrapers := st1.scrapers ++ [scraper] }

/-- How `main` ends or goes on: the sensors were listed, a panic, `log.Fatalf`, or the
HTTP server is started.  `running` lists the scrapers for which `startSensor` was called. -/
inductive Outcome where
  | listed : Outcome
  | panicked : Outcome
  | fatal (msg : String) (st : State) (running : List Scraper) : Outcome
  | serving (st : State) (running : List Scraper) : Outcome

/-- Function `main`, for the value of the flag `list-sensors` and the arguments
`flag.Args()`. -/
def main (listSensors : Bool) (ParseDuration : String → Except String Int)
    (AvailableCollectors : String → Option sensor.CollectorEntry) (envs : Nat → Env × Env)
    (args : List String) : Outcome :=
  if listSensors = true then .listed
  else
    match bindArgs ParseDuration AvailableCollectors envs 0 args State.init with
    | .panic => .panicked
    | .fatal msg st => .fatal msg st []
    | .ok st => .serving st (st.scrapers.foldl (fun running v => startSensor v running) [])

end main

namespace Claimed

/-- The type name of an argument in words: the text before its first comma. -/
def typeName (arg : String) : String :=
  String.mk (arg.data.takeWhile (fun c => c != ','))

end Claimed

namespace Example

/-- The same environment for every `processArg` call: nothing reachable, nothing readable. -/
def deadEnvs (_k : Nat) : Env × Env :=
  (deadEnv, deadEnv)

/-- A source whose scrape always returns the error `err`. -/
def failCollector (err : String) : sensor.Collector :=
  { Scrape := fun _ g => some (("", some err), g) }

/-- A registry with the source type `m` of `registry`, a type `bad` whose factory
returns an error and a type `dead` whose instances fail every scrape. -/
def registry3 (name : String) : Option sensor.CollectorEntry :=
  if name = "bad" then
    some { New := fun _ _ g => some (.error "no such device", g)
           DefaultInterval := 1000000000
           Type_ := ["# TYPE bad gauge"]
           Help := ["# HELP bad Never built."]
           Description := "A source that cannot be built." }
  else if name = "dead" then
    some { New := fun _ _ g => some (.ok (failCollector "timeout"), g)
           DefaultInterval := 1000000000
           Type_ := ["# TYPE dead gauge"]
           Help := ["# HELP dead Never answers."]
           Description := "A source that never answers." }
  else registry name

end Example

namespace Example

/-- The state after the argument `m` was bound from the initial state. -/
def boundM : main.State :=
  { scrapers := [constScraper]
    supportTexts := ["# TYPE m gauge", "# HELP m A constant."]
    pkg := Globals.init }

end Example

namespace Example

/-- The state after the arguments `m` and `m,2s` were bound from the initial state. -/
def boundMM : main.State :=
  { scrapers := [constScraper, { constScraper with Interval := 2000000000 }]
    supportTexts := ["# TYPE m gauge", "# HELP m A constant."]
    pkg := Globals.init }

end Example

/-! ## Metadata lines the sensor packages register -/

namespace sensor_coretemp

/-- Variable `sensorsType` of `init`. -/
def sensorsType : List String := ["# TYPE cpu_temperature_celsius gauge"]

/-- Variable `sensorsHelp` of `init`. -/
def sensorsHelp : List String :=
  ["# HELP cpu_temperature_celsius Current temperature of the CPU."]

end sensor_coretemp

namespace sensor_example

/-- Variable `sensorsType` of `init`. -/
def sensorsType : List String := ["# TYPE sensor_sample_random gauge"]

/-- Variable `sensorsHelp` of `init`. -/
def sensorsHelp : List String := ["# HELP sensor_sample_random A random number in [0.0, 1.0)"]

end sensor_example

namespace sensor_log

/-- Variable `sensorsType` of `init`. -/
def sensorsType : List String := ["# TYPE sensor_exporter_incidents counter"]

/-- Variable `sensorsHelp` of `init`. -/
def sensorsHelp : List String :=
  ["# HELP sensor_exporter_incidents Counter of serious incidents for sensor_exporter that an admin should investigate."]

end sensor_log

namespace sensor_upsc

/-- Variable `sensorsType`. -/
def sensorsType : List String :=
  ["# TYPE upsc_battery_charge gauge",
   "# TYPE upsc_battery_voltage gauge",
   "# TYPE upsc_input_frequency gauge",
   "# TYPE upsc_input_voltage gauge",
   "# TYPE upsc_input_current gauge",
   "# TYPE upsc_output_voltage gauge",
   "# TYPE upsc_ups_load gauge",
   "# TYPE upsc_ups_temperature gauge"]

/-- Variable `sensorsHelp`. -/
def sensorsHelp : List String :=
  ["# HELP upsc_battery_charge gauge Battery charge (percent)",
   "# HELP upsc_battery_voltage Battery voltage (V)",
   "# HELP upsc_input_frequency Input line frequency (Hz)",
   "# HELP upsc_input_voltage Input voltage (V)",
   "# HELP upsc_input_current Input current (A)",
   "# HELP upsc_output_voltage Output voltage (V)",
   "# HELP upsc_ups_load Load on UPS (percent)",
   "# HELP upsc_ups_temperature UPS temperature (degrees C)"]

end sensor_upsc

namespace Example

/-- A registry with one source type `x` that registers one `TYPE` line and two `HELP`
lines; its instances always return the snapshot `m{} 1.0`. -/
def registryExtraHelp (name : String) : Option sensor.CollectorEntry :=
  if name = "x" then
    some { New := fun _ _ g => some (.ok (constCollector "m\x7b\x7d 1.0\n"), g)
           DefaultInterval := 1000000000
           Type_ := ["# TYPE x gauge"]
           Help := ["# HELP x First.", "# HELP x Second."]
           Description := "A source with two help lines." }
  else none

/-- The state after the argument `x` was bound twice from the initial state, with the
registry `registryExtraHelp`. -/
def boundXX : main.State :=
  { scrapers := [{ constScraper with Type_ := "x" }, { constScraper with Type_ := "x" }]
    supportTexts := ["# TYPE x gauge", "# HELP x First."]
    pkg := Globals.init }

end Example

/-! ## Theorems -/

open Example

/-- A tick leaves the package-level variables, the incident counter among them, as the
`Scrape` call left them: the loop of `startSensor` writes none of them. -/
theorem startSensorTick_globals (env : Env) (s s1 : main.Scraper) (g g1 : Globals)
    (h : main.startSensorTick env s g = some (s1, g1)) :
    ∃ r, s.Collector.Scrape env g = some (r, g1) := by
  unfold main.startSensorTick at h
  cases hscr : s.Collector.Scrape env g with
  | none => simp [hscr] at h
  | some q =>
    obtain ⟨⟨value, err⟩, g2⟩ := q
    cases err with
    | none =>
      simp only [hscr, Option.some.injEq, Prod.mk.injEq] at h
      exact ⟨(value, none), by rw [h.2]⟩
    | some e =>
      simp only [hscr, Option.some.injEq, Prod.mk.injEq] at h
      exact ⟨(value, some e), by rw [h.2]⟩

/-- C1 (the code departs from the claim): a tick of a coretemp task whose file cannot be
read makes `Scrape` return an error, and the incident counter after the tick is the one
before it, not one more; and for a task whose scrapes succeed on ticks 1 and 4 and fail on
ticks 2 and 3 the counter after the four ticks is still 0, not 2, while the cached value
is the one of tick 4. -/
theorem C1_failed_tick_leaves_counter {F : Type} (fl : Go.Float64Ops F) :
    sensor_coretemp.Scrape fl {} deadEnv coretempGlobals
        = some (("", some ("Coretemp could not scrape: open " ++ tempInput
            ++ ": no such file or directory")), coretempGlobals)
      ∧ (main.tick deadEnv 0 (coretempState fl)).map (fun st => sensor.GetIncident st.pkg)
        = some (sensor.GetIncident (coretempState fl).pkg)
      ∧ (ticks 0 [fileEnv "/v" "1", deadEnv, deadEnv, fileEnv "/v" "4"] fileState).map
          (fun st => (sensor.GetIncident st.pkg, st.scrapers.map (fun s => s.Value)))
        = some (0, ["4"]) := by
  refine ⟨rfl, rfl, ?_⟩
  decide

/-- C2: when the `Scrape` call of the `i`-th task returns `(value, err)`, the tick
returns, the task's `Value` is `value` if `err` is nil and is unchanged otherwise, its
`Collector`, `Interval` and `Type` are unchanged, every other task is unchanged, and so
is `supportTexts`. -/
theorem C2_tick_changes_only_value (env : Env) (i : Nat) (st : main.State) (s : main.Scraper)
    (value : String) (err : Option String) (g1 : Globals)
    (hs : st.scrapers[i]? = some s)
    (hscrape : s.Collector.Scrape env st.pkg = some ((value, err), g1)) :
    ∃ st1 s1, main.tick env i st = some st1 ∧ st1.scrapers[i]? = some s1 ∧
      (err = none → s1.Value = value) ∧ (err ≠ none → s1.Value = s.Value) ∧
      s1.Collector = s.Collector ∧ s1.Interval = s.Interval ∧ s1.Type_ = s.Type_ ∧
      st1.scrapers.length = st.scrapers.length ∧
      (∀ j, j ≠ i → st1.scrapers[j]? = st.scrapers[j]?) ∧
      st1.supportTexts = st.supportTexts := by
  have hi : i < st.scrapers.length := by
    rcases List.getElem?_eq_some.mp hs with ⟨h, _⟩
    exact h
  cases err with
  | none =>
    refine ⟨{ st with scrapers := st.scrapers.set i { s with Value := value }, pkg := g1 },
      { s with Value := value }, ?_, ?_, ?_, ?_, rfl, rfl, rfl, ?_, ?_, rfl⟩
    · simp [main.tick, main.startSensorTick, hs, hscrape]
    · simp [List.getElem?_set, hi]
    · intro _; rfl
    · intro h; exact absurd rfl h
    · simp
    · intro j hj
      simp [List.getElem?_set, Ne.symm hj]
  | some e =>
    refine ⟨{ st with scrapers := st.scrapers.set i s, pkg := g1 }, s, ?_, ?_, ?_, ?_,
      rfl, rfl, rfl, ?_, ?_, rfl⟩
    · simp [main.tick, main.startSensorTick, hs, hscrape]
    · simp [List.getElem?_set, hi]
    · intro h; cases h
    · intro _; rfl
    · simp
    · intro j hj
      simp [List.getElem?_set, Ne.symm hj]

/-- Witness of C2 on a state with one task whose scrape returns an error. -/
theorem C2_tick_changes_only_value_witness :
    fileState.scrapers[0]? = some fileScraper ∧
    fileScraper.Collector.Scrape deadEnv fileState.pkg
      = some (("", some "open /v: no such file or directory"), Globals.init) ∧
    ∃ st1 s1, main.tick deadEnv 0 fileState = some st1 ∧ st1.scrapers[0]? = some s1 ∧
      ((some "open /v: no such file or directory" : Option String) = none → s1.Value = "") ∧
      ((some "open /v: no such file or directory" : Option String) ≠ none →
        s1.Value = fileScraper.Value) ∧
      s1.Collector = fileScraper.Collector ∧
      s1.Interval = fileScraper.Interval ∧
      s1.Type_ = fileScraper.Type_ ∧
      st1.scrapers.length = fileState.scrapers.length ∧
      (∀ j, j ≠ 0 → st1.scrapers[j]? = fileState.scrapers[j]?) ∧
      st1.supportTexts = fileState.supportTexts :=
  ⟨rfl, rfl, C2_tick_changes_only_value deadEnv 0 fileState fileScraper ""
    (some "open /v: no such file or directory") Globals.init rfl rfl⟩

/-- C3 (counterexample): the hddtemp task of `hddState` has a snapshot cached; after a
tick during which the daemon cannot be reached the cached snapshot is the empty string,
which is not the snapshot cached before the tick. -/
theorem C3_counterexample :
    deadEnv.dial hddSensor.Url = none ∧
    ∃ st1, main.tick deadEnv 0 hddState = some st1 ∧
      st1.scrapers.map (fun s => s.Value) = [""] ∧
      st1.scrapers.map (fun s => s.Value) ≠ hddState.scrapers.map (fun s => s.Value) :=
  ⟨rfl, { hddState with scrapers := [{ hddScraper with Value := "" }],
                        pkg := sensor.Incident hddState.pkg }, rfl, rfl, by decide⟩

/-- C3 (amended): when the daemon of a bound hddtemp source cannot be reached during a
tick, `Scrape` records one incident and returns the empty snapshot with a nil error, so
the tick stores the empty string as the task's cached snapshot; nothing else of the
state changes. -/
theorem C3_unreachable_daemon_empties_cache {F : Type} (fl : Go.Float64Ops F)
    (sn : sensor_hddtemp.Sensor) (env : Env) (i : Nat) (st : main.State) (s : main.Scraper)
    (hs : st.scrapers[i]? = some s)
    (hc : s.Collector = sensor_hddtemp.collector fl sn)
    (hd : env.dial sn.Url = none) :
    sensor_hddtemp.Scrape fl sn env st.pkg = some (("", none), sensor.Incident st.pkg) ∧
    main.tick env i st
      = some { st with scrapers := st.scrapers.set i { s with Value := "" },
                       pkg := sensor.Incident st.pkg } := by
  have h1 : sensor_hddtemp.Scrape fl sn env st.pkg
      = some (("", none), sensor.Incident st.pkg) := by
    simp [sensor_hddtemp.Scrape, hd]
  refine ⟨h1, ?_⟩
  have h2 : s.Collector.Scrape env st.pkg = some (("", none), sensor.Incident st.pkg) := by
    rw [hc]
    exact h1
  simp [main.tick, main.startSensorTick, hs, h2]

/-- Witness of the amended C3 on `hddState`. -/
theorem C3_unreachable_daemon_empties_cache_witness :
    hddState.scrapers[0]? = some hddScraper ∧
    hddScraper.Collector = sensor_hddtemp.collector noFloat hddSensor ∧
    deadEnv.dial hddSensor.Url = none ∧
    sensor_hddtemp.Scrape noFloat hddSensor deadEnv hddState.pkg
      = some (("", none), sensor.Incident hddState.pkg) ∧
    main.tick deadEnv 0 hddState
      = some { hddState with scrapers := hddState.scrapers.set 0 { hddScraper with Value := "" },
                             pkg := sensor.Incident hddState.pkg } :=
  ⟨rfl, rfl, rfl,
    C3_unreachable_daemon_empties_cache noFloat hddSensor deadEnv 0 hddState hddScraper rfl rfl rfl⟩

/-- C4 (the code departs from the claim): the record regexp matches the whole of
`||model|30|C`; stripping the leading bars and splitting on the bar gives the three
fields `model`, `30`, `C`, so field 3 is out of range and `Scrape` panics when the
daemon sends this line, whatever the float operations are; a tick of a bound hddtemp
task during which the daemon sends this line panics with it. -/
theorem C4_empty_device_field_panics {F : Type} (fl : Go.Float64Ops F)
    (sn : sensor_hddtemp.Sensor) (g : Globals) (cached : String) :
    sensor_hddtemp.reFindAllString "||model|30|C\n" = ["||model|30|C"] ∧
    Go.Split (Go.TrimLeft "||model|30|C" '|') '|' = ["model", "30", "C"] ∧
    sensor_hddtemp.Scrape fl sn (replyEnv "||model|30|C\n") g = none ∧
    main.startSensorTick (replyEnv "||model|30|C\n")
      { Collector := sensor_hddtemp.collector fl sn, Interval := 4800000000,
        Type_ := "hddtemp", Value := cached } g = none := by
  have h : sensor_hddtemp.reFindAllString "||model|30|C\n" = ["||model|30|C"] := by decide
  have h3 : (Go.Split (Go.TrimLeft "||model|30|C" '|') '|')[3]? = none := by decide
  have hscrape : sensor_hddtemp.Scrape fl sn (replyEnv "||model|30|C\n") g = none := by
    simp [sensor_hddtemp.Scrape, replyEnv, h, sensor_hddtemp.scrapeRecords,
      sensor_hddtemp.scrapeRecord, h3]
  refine ⟨by decide, by decide, hscrape, ?_⟩
  simp [main.startSensorTick, sensor_hddtemp.collector, hscrape]

/-- C5 (the code departs from the claim): for the empty options string and for an
options string without a colon the host regexp has no match, `FindStringSubmatch`
returns the nil slice, and the access to index 1 panics; with a colon the sensor is
returned.  The command-line argument `hddtemp`, which leaves the options empty, makes
`processArg` panic in the factory call. -/
theorem C5_options_without_colon_panic {F : Type} (fl : Go.Float64Ops F)
    (ParseDuration : String → Except String Int) (env envScrape : Env) :
    sensor_hddtemp.hostReFindStringSubmatch "" = [] ∧
    sensor_hddtemp.NewSensor env "" = none ∧
    sensor_hddtemp.NewSensor env "localhost" = none ∧
    sensor_hddtemp.NewSensor env "localhost:7634"
      = some (.ok { Url := "localhost:7634", Host := "localhost" }) ∧
    main.processArg ParseDuration (hddRegistry fl) env envScrape "hddtemp" main.State.init
      = none := by
  have h0 : sensor_hddtemp.hostReFindStringSubmatch "" = [] := by decide
  have hnew : sensor_hddtemp.NewSensor env "" = none := by
    simp [sensor_hddtemp.NewSensor, h0]
  refine ⟨h0, hnew, ?_, ?_, ?_⟩
  · have h : sensor_hddtemp.hostReFindStringSubmatch "localhost" = [] := by decide
    simp [sensor_hddtemp.NewSensor, h]
  · have h : sensor_hddtemp.hostReFindStringSubmatch "localhost:7634"
        = ["localhost:7634", "localhost"] := by decide
    simp [sensor_hddtemp.NewSensor, h]
  · have hsplit : Go.SplitN "hddtemp" ',' 3 = ["hddtemp"] := by decide
    simp [main.processArg, hsplit, main.bindSensor, hddRegistry, sensor_hddtemp.entry,
      main.addSupportTexts, sensor_hddtemp.New, hnew]

/-- A scraper returned by `bindSensor` belongs to a registered type and has the
interval found by the two zero tests. -/
theorem bindSensor_interval (reg : String → Option sensor.CollectorEntry) (e1 e2 : Env)
    (name : String) (iv : Int) (opts : String) (st st1 : main.State) (sc : main.Scraper)
    (h : main.bindSensor reg e1 e2 name iv opts st = some (.ok sc, st1)) :
    ∃ entry, reg name = some entry ∧
      sc.Interval = (if iv ≠ 0 then iv else Claimed.fallbackInterval entry) := by
  unfold main.bindSensor at h
  cases hentry : reg name with
  | none => simp [hentry] at h
  | some entry =>
    refine ⟨entry, rfl, ?_⟩
    simp only [hentry] at h
    cases htexts : main.addSupportTexts entry.Help 0 entry.Type_ st.supportTexts with
    | none => simp [htexts] at h
    | some texts =>
      simp only [htexts] at h
      cases hnew : entry.New opts e1 st.pkg with
      | none => simp [hnew] at h
      | some r =>
        obtain ⟨r1, g1⟩ := r
        cases r1 with
        | error e => simp [hnew] at h
        | ok c =>
          simp only [hnew] at h
          cases hscr : c.Scrape e2 g1 with
          | none => simp [hscr] at h
          | some q =>
            obtain ⟨⟨value, err⟩, g2⟩ := q
            cases err with
            | some e => simp [hscr] at h
            | none =>
              simp only [hscr, Option.some.injEq, Prod.mk.injEq, Except.ok.injEq] at h
              rw [← h.1]
              simp only [Claimed.fallbackInterval]
              by_cases hiv : iv = 0
              · by_cases hd : entry.DefaultInterval = 0 <;> simp [hiv, hd]
              · simp [hiv]

/-- C6 (counterexample): with the interval field `0s`, which parses as the duration
zero, the task bound for the source `m` (suggested interval one second) gets the
interval of one second, not the value of the field. -/
theorem C6_counterexample :
    ∃ sc st1 entry,
      main.processArg parseDuration registry deadEnv deadEnv "m,0s" main.State.init
        = some (.ok sc, st1) ∧
      registry "m" = some entry ∧
      (Go.SplitN "m,0s" ',' 3)[1]? = some "0s" ∧
      parseDuration "0s" = .ok 0 ∧
      sc.Interval = 1000000000 ∧
      Claimed.interval parseDuration entry (Go.SplitN "m,0s" ',' 3)[1]? = 0 ∧
      sc.Interval ≠ Claimed.interval parseDuration entry (Go.SplitN "m,0s" ',' 3)[1]? := by
  have hsplit : Go.SplitN "m,0s" ',' 3 = ["m", "0s"] := by decide
  refine ⟨{ Collector := constCollector "m\x7b\x7d 1.0\n", Interval := 1000000000,
            Type_ := "m", Value := "m\x7b\x7d 1.0\n" },
    { scrapers := [], supportTexts := ["# TYPE m gauge", "# HELP m A constant."],
      pkg := Globals.init },
    { New := fun _ _ g => some (.ok (constCollector "m\x7b\x7d 1.0\n"), g)
      DefaultInterval := 1000000000
      Type_ := ["# TYPE m gauge"]
      Help := ["# HELP m A constant."]
      Description := "A constant source." }, ?_, rfl, by decide, rfl, rfl, ?_, ?_⟩
  · simp only [main.processArg, hsplit]
    rfl
  · rw [hsplit]; rfl
  · rw [hsplit]; decide

/-- C6 (amended): a scraper returned by `processArg` has a registered type, and its
interval is the value of the interval field when that field is present and parses as a
duration other than zero; otherwise (field absent, empty, unparsable or zero) the
suggested default interval of the source when that is non-zero; otherwise 4800 ms. -/
theorem C6_interval_precedence (ParseDuration : String → Except String Int)
    (reg : String → Option sensor.CollectorEntry) (e1 e2 : Env) (arg : String)
    (st st1 : main.State) (sc : main.Scraper)
    (h : main.processArg ParseDuration reg e1 e2 arg st = some (.ok sc, st1)) :
    ∃ entry, reg ((Go.SplitN arg ',' 3).headD "") = some entry ∧
      sc.Interval
        = Claimed.intervalNonZero ParseDuration entry (Go.SplitN arg ',' 3)[1]? := by
  unfold main.processArg at h
  generalize Go.SplitN arg ',' 3 = conf at h
  rcases conf with _ | ⟨c0, _ | ⟨c1, _ | ⟨c2, _ | ⟨c3, cs⟩⟩⟩⟩
  · simp at h
  · obtain ⟨entry, hentry, hiv⟩ := bindSensor_interval reg e1 e2 c0 0 "" st st1 sc h
    exact ⟨entry, hentry, by simpa [Claimed.intervalNonZero] using hiv⟩
  · obtain ⟨entry, hentry, hiv⟩ := bindSensor_interval reg e1 e2 c0 _ "" st st1 sc h
    refine ⟨entry, hentry, ?_⟩
    rw [hiv]
    simp only [main.parseInterval, Claimed.intervalNonZero, List.getElem?_cons_succ,
      List.getElem?_cons_zero]
    cases ParseDuration c1 <;> simp
  · obtain ⟨entry, hentry, hiv⟩ := bindSensor_interval reg e1 e2 c0 _ c2 st st1 sc h
    refine ⟨entry, hentry, ?_⟩
    rw [hiv]
    simp only [main.parseInterval, Claimed.intervalNonZero, List.getElem?_cons_succ,
      List.getElem?_cons_zero]
    cases ParseDuration c1 <;> simp
  · simp at h

/-- Witness of the amended C6: the argument `m,2s` binds a task of interval two seconds. -/
theorem C6_interval_precedence_witness :
    main.processArg parseDuration registry deadEnv deadEnv "m,2s" main.State.init
      = some (.ok { constScraper with Interval := 2000000000 },
          { main.State.init with supportTexts := ["# TYPE m gauge", "# HELP m A constant."] }) ∧
    ∃ entry, registry ((Go.SplitN "m,2s" ',' 3).headD "") = some entry ∧
      ({ constScraper with Interval := 2000000000 } : main.Scraper).Interval
        = Claimed.intervalNonZero parseDuration entry (Go.SplitN "m,2s" ',' 3)[1]? :=
  have h : main.processArg parseDuration registry deadEnv deadEnv "m,2s" main.State.init
      = some (.ok { constScraper with Interval := 2000000000 },
          { main.State.init with
            supportTexts := ["# TYPE m gauge", "# HELP m A constant."] }) := by
    have hsplit : Go.SplitN "m,2s" ',' 3 = ["m", "2s"] := by decide
    simp only [main.processArg, hsplit]
    rfl
  ⟨h, C6_interval_precedence parseDuration registry deadEnv deadEnv "m,2s" main.State.init _ _ h⟩

/-- Writing texts with `Fprintln` one after the other appends their lines. -/
theorem foldl_Fprintln (l : List String) (w : String) :
    l.foldl main.Fprintln w = w ++ Claimed.lines l := by
  induction l generalizing w with
  | nil => simp [Claimed.lines, String.join]
  | cons a l ih =>
    have hjoin : ∀ (m : List String) (acc : String),
        List.foldl (fun r s => r ++ s) acc m = acc ++ List.foldl (fun r s => r ++ s) "" m := by
      intro m
      induction m with
      | nil => intro acc; simp
      | cons b m ihm =>
        intro acc
        rw [List.foldl_cons, ihm (acc ++ b), List.foldl_cons, ihm ("" ++ b)]
        simp [String.append_assoc]
    rw [List.foldl_cons, ih]
    simp only [Claimed.lines, String.join, List.map_cons, List.foldl_cons, main.Fprintln]
    rw [hjoin _ ("" ++ (a ++ "\n"))]
    simp [String.append_assoc]

/-- The body written by `metricsHandler`: the lines of the keys in the order visited,
then the lines of the cached values in the order of `scrapers`. -/
theorem metricsHandler_body (order : List String) (st : main.State) :
    (main.metricsHandler order st).1
      = Claimed.lines order ++ Claimed.lines (st.scrapers.map (fun s => s.Value)) := by
  have hval : ∀ (l : List main.Scraper) (w : String),
      l.foldl (fun w v => main.Fprintln w v.Value) w
        = (l.map (fun s => s.Value)).foldl main.Fprintln w := by
    intro l
    induction l with
    | nil => intro w; rfl
    | cons a l ih => intro w; simp [List.foldl_cons, ih]
  simp only [main.metricsHandler]
  rw [hval, foldl_Fprintln, foldl_Fprintln]
  simp

/-- C7 (counterexample): with the single task whose cached snapshot is `m{} 1.0`
followed by a line feed and no metadata, the body is the snapshot followed by a second
line feed, not the snapshot alone. -/
theorem C7_counterexample :
    constState.supportTexts = [] ∧
    constState.scrapers.map (fun s => s.Value) = ["m\x7b\x7d 1.0\n"] ∧
    (main.metricsHandler [] constState).1 = "m\x7b\x7d 1.0\n\n" ∧
    (main.metricsHandler [] constState).1 ≠ "m\x7b\x7d 1.0\n" := by
  refine ⟨rfl, rfl, by decide, by decide⟩

/-- C7 (amended): the body written by `metricsHandler` is the metadata lines, each
followed by a line feed, in the order the map is visited, followed by the cached
snapshot of each task in the order the tasks were bound, each snapshot followed by one
added line feed. -/
theorem C7_body_is_lines (order : List String) (st : main.State) :
    (main.metricsHandler order st).1
      = String.join (order.map (fun k => k ++ "\n"))
        ++ String.join (st.scrapers.map (fun s => s.Value ++ "\n")) := by
  rw [metricsHandler_body]
  simp [Claimed.lines, List.map_map, Function.comp_def]

/-- C8 (counterexample): in `hddState` the map holds two metadata lines; a call that
visits them in one order and a next call that visits them in the other order, both
allowed, write different bodies although no tick came in between. -/
theorem C8_counterexample :
    main.RangeOrder hddState.supportTexts
      ["# TYPE hdd_temperature_celsius gauge",
       "# HELP hdd_temperature_celsius Current temperature of the disk."] ∧
    main.RangeOrder hddState.supportTexts
      ["# HELP hdd_temperature_celsius Current temperature of the disk.",
       "# TYPE hdd_temperature_celsius gauge"] ∧
    (main.metricsHandler
        ["# TYPE hdd_temperature_celsius gauge",
         "# HELP hdd_temperature_celsius Current temperature of the disk."] hddState).1
      ≠ (main.metricsHandler
        ["# HELP hdd_temperature_celsius Current temperature of the disk.",
         "# TYPE hdd_temperature_celsius gauge"] hddState).1 := by
  refine ⟨List.Perm.refl _, List.Perm.swap _ _ _, by decide⟩

/-- C8 (amended): `metricsHandler` leaves the state (metadata set, cached snapshots,
package-level variables) as it is; the bodies of two calls with no tick in between are
the metadata lines in the order each call visits the map, two orders of the same lines,
followed by the same snapshot part; the bodies are byte-identical when both calls visit
the map in the same order, and always when the map holds at most one line. -/
theorem C8_handler_reads_only (st : main.State) (o1 o2 : List String)
    (h1 : main.RangeOrder st.supportTexts o1)
    (h2 : main.RangeOrder (main.metricsHandler o1 st).2.supportTexts o2) :
    (main.metricsHandler o1 st).2 = st ∧
    (main.metricsHandler o2 (main.metricsHandler o1 st).2).2 = st ∧
    (main.metricsHandler o1 st).1
      = Claimed.lines o1 ++ Claimed.lines (st.scrapers.map (fun s => s.Value)) ∧
    (main.metricsHandler o2 (main.metricsHandler o1 st).2).1
      = Claimed.lines o2 ++ Claimed.lines (st.scrapers.map (fun s => s.Value)) ∧
    o1.Perm o2 ∧
    (o1 = o2 →
      (main.metricsHandler o1 st).1 = (main.metricsHandler o2 (main.metricsHandler o1 st).2).1) ∧
    (st.supportTexts.length ≤ 1 →
      (main.metricsHandler o1 st).1
        = (main.metricsHandler o2 (main.metricsHandler o1 st).2).1) := by
  have hst : (main.metricsHandler o1 st).2 = st := rfl
  rw [hst] at h2 ⊢
  have hperm : o1.Perm o2 := List.Perm.trans h1 (List.Perm.symm h2)
  refine ⟨rfl, rfl, metricsHandler_body o1 st, metricsHandler_body o2 st, hperm, ?_, ?_⟩
  · intro h; rw [h]
  · intro hlen
    have heq : o1 = o2 := by
      unfold main.RangeOrder at h1 h2
      match hm : st.supportTexts, hlen with
      | [], _ =>
        rw [hm] at h1 h2
        rw [List.perm_nil.mp h1, List.perm_nil.mp h2]
      | [a], _ =>
        rw [hm] at h1 h2
        rw [List.perm_singleton.mp h1, List.perm_singleton.mp h2]
      | _ :: _ :: _, hl => simp at hl
    rw [heq]

/-- Witness of the amended C8 on `hddState`, with the two orders of its metadata lines. -/
theorem C8_handler_reads_only_witness :
    main.RangeOrder hddState.supportTexts
      ["# TYPE hdd_temperature_celsius gauge",
       "# HELP hdd_temperature_celsius Current temperature of the disk."] ∧
    main.RangeOrder hddState.supportTexts
      ["# HELP hdd_temperature_celsius Current temperature of the disk.",
       "# TYPE hdd_temperature_celsius gauge"] ∧
    (main.metricsHandler
        ["# TYPE hdd_temperature_celsius gauge",
         "# HELP hdd_temperature_celsius Current temperature of the disk."] hddState).2
      = hddState :=
  ⟨List.Perm.refl _, List.Perm.swap _ _ _,
    (C8_handler_reads_only hddState
      ["# TYPE hdd_temperature_celsius gauge",
       "# HELP hdd_temperature_celsius Current temperature of the disk."]
      ["# HELP hdd_temperature_celsius Current temperature of the disk.",
       "# TYPE hdd_temperature_celsius gauge"]
      (List.Perm.refl _) (List.Perm.swap _ _ _)).1⟩

/-- The walk of `detectCoreTempSensors` does not write `initialized`. -/
theorem foldl_matchSensorFiles_initialized (paths : List String) (v : sensor_coretemp.Vars) :
    (paths.foldl sensor_coretemp.matchSensorFiles v).initialized = v.initialized := by
  induction paths generalizing v with
  | nil => rfl
  | cons p ps ih =>
    rw [List.foldl_cons, ih]
    unfold sensor_coretemp.matchSensorFiles
    split
    · rfl
    · split <;> rfl

/-- Reading the label files does not write `initialized`. -/
theorem readLabels_initialized (env : Env) (files : List String) (v : sensor_coretemp.Vars) :
    (sensor_coretemp.readLabels env files v).2.initialized = v.initialized := by
  induction files generalizing v with
  | nil => rfl
  | cons f fs ih =>
    unfold sensor_coretemp.readLabels
    cases env.readFile f with
    | error e => rfl
    | ok dat => simp only []; rw [ih]

/-- No call of coretemp `NewSensor` writes `initialized`. -/
theorem coretemp_NewSensor_initialized (env : Env) (opts : String) (v : sensor_coretemp.Vars) :
    (sensor_coretemp.NewSensor env opts v).2.initialized = v.initialized := by
  have hdet : (sensor_coretemp.detectCoreTempSensors env v).2.initialized = v.initialized := by
    unfold sensor_coretemp.detectCoreTempSensors
    simp only []
    rw [readLabels_initialized, foldl_matchSensorFiles_initialized]
  unfold sensor_coretemp.NewSensor
  split
  · rfl
  · split
    · rename_i err v1 heq
      rw [heq] at hdet
      exact hdet
    · rename_i v1 heq
      rw [heq] at hdet
      simp only []
      split <;> exact hdet

/-- The guard of the log sensor: once `NewSensor` has returned an instance, every later
call returns the error and leaves `initialized` set. -/
theorem log_NewSensor_once (opts opts2 : String) (b b1 : Bool) (s : sensor_log.Sensor)
    (h : sensor_log.NewSensor opts b = (.ok s, b1)) :
    b1 = true ∧
    sensor_log.NewSensor opts2 b1 = (.error "Only one log sensor may be set.", b1) := by
  unfold sensor_log.NewSensor at h
  split at h
  · simp at h
  · simp only [Prod.mk.injEq] at h
    rw [← h.2]
    exact ⟨rfl, rfl⟩

/-- C9 (the code departs from the claim): coretemp `NewSensor` never writes
`initialized`, so the guard at its head never fires: on a machine with one coretemp
input file the first call returns an instance, `initialized` is still false, and the
second call returns an instance as well (with the input file recorded twice). -/
theorem C9_coretemp_second_instance (env : Env) (opts : String) (v : sensor_coretemp.Vars) :
    (sensor_coretemp.NewSensor env opts v).2.initialized = v.initialized ∧
    sensor_coretemp.NewSensor (fileEnv tempInput "45000\n") "" sensor_coretemp.Vars.init
      = (.ok {}, { initialized := false, cpuTempFiles := [tempInput], cpuLabelFiles := [],
                   cpuLabel := [], numOfInputs := 1 }) ∧
    sensor_coretemp.NewSensor (fileEnv tempInput "45000\n") ""
        { initialized := false, cpuTempFiles := [tempInput], cpuLabelFiles := [],
          cpuLabel := [], numOfInputs := 1 }
      = (.ok {}, { initialized := false, cpuTempFiles := [tempInput, tempInput],
                   cpuLabelFiles := [], cpuLabel := [], numOfInputs := 2 }) := by
  refine ⟨coretemp_NewSensor_initialized env opts v, ?_, ?_⟩
  · have h : sensor_coretemp.inputsMatchString tempInput = true := by decide
    simp [sensor_coretemp.NewSensor, sensor_coretemp.detectCoreTempSensors, fileEnv,
      sensor_coretemp.matchSensorFiles, h, sensor_coretemp.readLabels,
      sensor_coretemp.Vars.init]
  · have h : sensor_coretemp.inputsMatchString tempInput = true := by decide
    simp [sensor_coretemp.NewSensor, sensor_coretemp.detectCoreTempSensors, fileEnv,
      sensor_coretemp.matchSensorFiles, h, sensor_coretemp.readLabels]

/-- Splitting a text that does not hold the separator gives the text alone. -/
theorem splitChars_not_mem (c : Char) (l : List Char) (h : c ∉ l) :
    Go.splitChars c l = [l] := by
  induction l with
  | nil => rfl
  | cons x xs ih =>
    have hx : x ≠ c := fun hxc => h (by simp [hxc])
    have hxs : c ∉ xs := fun hm => h (List.mem_cons_of_mem _ hm)
    simp [Go.splitChars, hx, ih hxs]

/-- With the host given, upsc `NewSensor` does set the UPS name. -/
theorem upsc_NewSensor_with_host (env : Env) :
    sensor_upsc.NewSensor compileAny env "myups@localhost"
      = .ok { Labels := "\x7bups=\"myups\",host=\"localhost\"\x7d", Host := "localhost:3493",
              Ups := "myups", Re := "VAR myups ([a-zA-Z.]*) \"(.*)\"",
              BeginToken := "BEGIN LIST VAR myups\n", EndToken := "END LIST VAR myups\n" } := by
  have h1 : Go.Split "myups@localhost" '@' = ["myups", "localhost"] := by decide
  have h2 : Go.Split "localhost" ':' = ["localhost"] := by decide
  simp only [sensor_upsc.NewSensor, h1, h2, compileAny]
  rfl

/-- C10 (the code departs from the claim): for an options string without `@` the
variable `ups` is never assigned, so the sensor returned for host `localhost:3493` has
the empty UPS name: its tokens are `BEGIN LIST VAR ` and `END LIST VAR ` followed by a
line feed and its regexp is built from `VAR  `, whatever the options string names. -/
theorem C10_host_omitted_drops_ups {R : Type} (Compile : String → Except String R) (env : Env)
    (opts : String) (re : R)
    (hat : '@' ∉ opts.data)
    (hre : Compile "VAR  ([a-zA-Z.]*) \"(.*)\"" = .ok re) :
    sensor_upsc.NewSensor Compile env opts
      = .ok { Labels := "\x7bups=\"" ++ opts ++ "\"\x7d", Host := "localhost:3493", Ups := "",
              Re := re, BeginToken := "BEGIN LIST VAR \n", EndToken := "END LIST VAR \n" } := by
  have hsplit : Go.Split opts '@' = [opts] := by
    simp [Go.Split, splitChars_not_mem '@' opts.data hat]
  have hs : "VAR " ++ "" ++ " ([a-zA-Z.]*) \"(.*)\"" = "VAR  ([a-zA-Z.]*) \"(.*)\"" := by
    decide
  have hb : "BEGIN LIST VAR " ++ "" ++ "\n" = "BEGIN LIST VAR \n" := by decide
  have he : "END LIST VAR " ++ "" ++ "\n" = "END LIST VAR \n" := by decide
  simp only [sensor_upsc.NewSensor, hsplit, hs, hre, hb, he]

/-- Witness of C10 for the options string `myups`: the UPS name of the sensor is empty. -/
theorem C10_host_omitted_drops_ups_witness :
    '@' ∉ "myups".data ∧
    compileAny "VAR  ([a-zA-Z.]*) \"(.*)\"" = .ok "VAR  ([a-zA-Z.]*) \"(.*)\"" ∧
    sensor_upsc.NewSensor compileAny deadEnv "myups"
      = .ok { Labels := "\x7bups=\"" ++ "myups" ++ "\"\x7d", Host := "localhost:3493", Ups := "",
              Re := "VAR  ([a-zA-Z.]*) \"(.*)\"", BeginToken := "BEGIN LIST VAR \n",
              EndToken := "END LIST VAR \n" } :=
  ⟨by decide, rfl,
    C10_host_omitted_drops_ups compileAny deadEnv "myups" "VAR  ([a-zA-Z.]*) \"(.*)\""
      (by decide) rfl⟩

/-! ### Startup -/

/-- The text before the first occurrence of a character, by `cutChars`. -/
theorem cutChars_takeWhile (c : Char) (l : List Char) :
    (match Go.cutChars c l with
      | none => l
      | some (a, _) => a) = l.takeWhile (fun x => x != c) := by
  induction l with
  | nil => rfl
  | cons x xs ih =>
    unfold Go.cutChars
    by_cases hx : x = c
    · simp [hx]
    · simp only [hx, if_false]
      have hne : (x != c) = true := by simp [hx]
      rw [List.takeWhile_cons, hne]
      simp only [if_true]
      cases hcut : Go.cutChars c xs with
      | none =>
        rw [hcut] at ih
        simp only [] at ih ⊢
        rw [← ih]
      | some q =>
        obtain ⟨a, b⟩ := q
        rw [hcut] at ih
        simp only [] at ih ⊢
        rw [← ih]

/-- The pieces `SplitN(arg, ",", 3)` gives: one, two or three, the first being the text
before the first comma. -/
theorem SplitN3_cases (arg : String) :
    (Go.SplitN arg ',' 3 = [Claimed.typeName arg]) ∨
    (∃ c1, Go.SplitN arg ',' 3 = [Claimed.typeName arg, c1]) ∨
    (∃ c1 c2, Go.SplitN arg ',' 3 = [Claimed.typeName arg, c1, c2]) := by
  have htw := cutChars_takeWhile ',' arg.data
  unfold Go.SplitN Claimed.typeName
  cases h1 : Go.cutChars ',' arg.data with
  | none =>
    left
    rw [h1] at htw
    simp only [] at htw
    simp [Go.splitNChars, h1, ← htw]
  | some q =>
    obtain ⟨a, b⟩ := q
    rw [h1] at htw
    simp only [] at htw
    right
    cases h2 : Go.cutChars ',' b with
    | none =>
      left
      exact ⟨String.mk b, by simp [Go.splitNChars, h1, h2, ← htw]⟩
    | some q2 =>
      obtain ⟨a2, b2⟩ := q2
      right
      exact ⟨String.mk a2, String.mk b2, by simp [Go.splitNChars, h1, h2, ← htw]⟩

/-- Function `processArg` is `bindSensor` for the text before the first comma as type
name, the parsed second piece (0 without one) as interval and the third piece (empty
without one) as options. -/
theorem processArg_eq_bindSensor (pd : String → Except String Int)
    (reg : String → Option sensor.CollectorEntry) (e1 e2 : Env) (arg : String)
    (st : main.State) :
    main.processArg pd reg e1 e2 arg st
      = main.bindSensor reg e1 e2 (Claimed.typeName arg)
          (match (Go.SplitN arg ',' 3)[1]? with
            | none => 0
            | some f => main.parseInterval pd f)
          ((Go.SplitN arg ',' 3)[2]?.getD "") st := by
  unfold main.processArg
  rcases SplitN3_cases arg with h | ⟨c1, h⟩ | ⟨c1, c2, h⟩ <;> rw [h] <;> rfl

/-- What a successful `bindSensor` did: the type is registered, the metadata lines were
stored, the factory returned the collector, the first scrape returned the value. -/
theorem bindSensor_ok (reg : String → Option sensor.CollectorEntry) (e1 e2 : Env)
    (name : String) (iv : Int) (opts : String) (st st1 : main.State) (sc : main.Scraper)
    (h : main.bindSensor reg e1 e2 name iv opts st = some (.ok sc, st1)) :
    ∃ entry texts g1 g2, reg name = some entry ∧
      main.addSupportTexts entry.Help 0 entry.Type_ st.supportTexts = some texts ∧
      entry.New opts e1 st.pkg = some (.ok sc.Collector, g1) ∧
      sc.Collector.Scrape e2 g1 = some ((sc.Value, none), g2) ∧
      sc.Type_ = name ∧
      st1 = { st with supportTexts := texts, pkg := g2 } := by
  unfold main.bindSensor at h
  cases hentry : reg name with
  | none => simp [hentry] at h
  | some entry =>
    simp only [hentry] at h
    cases htexts : main.addSupportTexts entry.Help 0 entry.Type_ st.supportTexts with
    | none => simp [htexts] at h
    | some texts =>
      simp only [htexts] at h
      cases hnew : entry.New opts e1 st.pkg with
      | none => simp [hnew] at h
      | some r =>
        obtain ⟨r1, g1⟩ := r
        cases r1 with
        | error e => simp [hnew] at h
        | ok c =>
          simp only [hnew] at h
          cases hscr : c.Scrape e2 g1 with
          | none => simp [hscr] at h
          | some q =>
            obtain ⟨⟨value, err⟩, g2⟩ := q
            cases err with
            | some e => simp [hscr] at h
            | none =>
              simp only [hscr, Option.some.injEq, Prod.mk.injEq, Except.ok.injEq] at h
              obtain ⟨hsc, hst⟩ := h
              subst hsc
              exact ⟨entry, texts, g1, g2, rfl, htexts, hnew, hscr, rfl, hst.symm⟩

/-- The loop over `Type` does not panic when `Help` is long enough. -/
theorem addSupportTexts_isSome (help : List String) (ts : List String) (k : Nat)
    (m : List String) (h : k + ts.length ≤ help.length) :
    ∃ texts, main.addSupportTexts help k ts m = some texts := by
  induction ts generalizing k m with
  | nil => exact ⟨m, rfl⟩
  | cons t ts ih =>
    have hk : k < help.length := by simp at h; omega
    unfold main.addSupportTexts
    rw [List.getElem?_eq_getElem hk]
    simp only []
    apply ih
    simp at h ⊢
    omega

/-- The loop over the arguments, once a first part of them is bound, goes on with the rest. -/
theorem bindArgs_append (pd : String → Except String Int)
    (reg : String → Option sensor.CollectorEntry) (envs : Nat → Env × Env)
    (pre rest : List String) (k : Nat) (st0 st : main.State)
    (h : main.bindArgs pd reg envs k pre st0 = .ok st) :
    main.bindArgs pd reg envs k (pre ++ rest) st0
      = main.bindArgs pd reg envs (k + pre.length) rest st := by
  induction pre generalizing k st0 with
  | nil =>
    simp only [main.bindArgs, main.Bound.ok.injEq] at h
    simp [h]
  | cons a as ih =>
    simp only [main.bindArgs] at h
    rw [List.cons_append]
    simp only [main.bindArgs]
    cases hp : main.processArg pd reg (envs k).1 (envs k).2 a st0 with
    | none => simp [hp] at h
    | some r =>
      obtain ⟨r1, st1⟩ := r
      cases r1 with
      | error e => simp [hp] at h
      | ok sc =>
        simp only [hp] at h ⊢
        have hlen : k + 1 + as.length = k + (a :: as).length := by
          simp only [List.length_cons]
          omega
        rw [ih (k + 1) _ h, hlen]

/-- C11: when the arguments before `a` are bound and `processArg` meets for `a` a type
that is not registered, a factory call (made once the metadata lines are stored) that
returns an error, or a first scrape that returns an error, then `processArg` returns an
error and no scraper, and `main` ends in `log.Fatalf` with no call of `startSensor`
made, whatever arguments follow. -/
theorem C11_startup_all_or_nothing (pd : String → Except String Int)
    (reg : String → Option sensor.CollectorEntry) (envs : Nat → Env × Env)
    (pre : List String) (a : String) (post : List String) (st : main.State)
    (hpre : main.bindArgs pd reg envs 0 pre main.State.init = .ok st)
    (hfail :
      reg (Claimed.typeName a) = none ∨
      (∃ entry texts e g1, reg (Claimed.typeName a) = some entry ∧
        main.addSupportTexts entry.Help 0 entry.Type_ st.supportTexts = some texts ∧
        entry.New ((Go.SplitN a ',' 3)[2]?.getD "") (envs pre.length).1 st.pkg
          = some (.error e, g1)) ∨
      (∃ entry texts c g1 v e g2, reg (Claimed.typeName a) = some entry ∧
        main.addSupportTexts entry.Help 0 entry.Type_ st.supportTexts = some texts ∧
        entry.New ((Go.SplitN a ',' 3)[2]?.getD "") (envs pre.length).1 st.pkg
          = some (.ok c, g1) ∧
        c.Scrape (envs pre.length).2 g1 = some ((v, some e), g2))) :
    ∃ err st1,
      main.processArg pd reg (envs pre.length).1 (envs pre.length).2 a st
        = some (.error err, st1) ∧
      main.main false pd reg envs (pre ++ a :: post)
        = .fatal ("Could not add “" ++ a ++ "”. Err: " ++ err ++ "\n") st1 [] := by
  have hperr : ∃ err st1,
      main.processArg pd reg (envs pre.length).1 (envs pre.length).2 a st
        = some (.error err, st1) := by
    rw [processArg_eq_bindSensor]
    rcases hfail with hnone | ⟨entry, texts, e, g1, hentry, htexts, hnew⟩
        | ⟨entry, texts, c, g1, v, e, g2, hentry, htexts, hnew, hscr⟩
    · exact ⟨"Sensor " ++ Claimed.typeName a ++ " not found", st,
        by simp only [main.bindSensor, hnone]⟩
    · exact ⟨"Could not init sensor: " ++ e, { st with supportTexts := texts, pkg := g1 },
        by simp only [main.bindSensor, hentry, htexts, hnew]⟩
    · exact ⟨"Could not perform first scrape: " ++ e,
        { st with supportTexts := texts, pkg := g2 },
        by simp only [main.bindSensor, hentry, htexts, hnew, hscr]⟩
  obtain ⟨err, st1, hp⟩ := hperr
  refine ⟨err, st1, hp, ?_⟩
  have hrun : main.bindArgs pd reg envs 0 (pre ++ a :: post) main.State.init
      = .fatal ("Could not add “" ++ a ++ "”. Err: " ++ err ++ "\n") st1 := by
    rw [bindArgs_append pd reg envs pre (a :: post) 0 _ st hpre]
    simp only [main.bindArgs, Nat.zero_add, hp]
  simp only [main.main, hrun]
  rfl

/-- Witness of C11: with the arguments `m`, `bad,1s,x`, `m`, the first is bound, the
factory of `bad` returns an error, and `main` ends in `log.Fatalf` with no task started. -/
theorem C11_startup_all_or_nothing_witness :
    main.bindArgs parseDuration registry3 deadEnvs 0 ["m"] main.State.init = .ok boundM ∧
    (∃ err st1,
      main.processArg parseDuration registry3 (deadEnvs 1).1 (deadEnvs 1).2 "bad,1s,x" boundM
        = some (.error err, st1) ∧
      main.main false parseDuration registry3 deadEnvs (["m"] ++ "bad,1s,x" :: ["m"])
        = .fatal ("Could not add “" ++ "bad,1s,x" ++ "”. Err: " ++ err ++ "\n") st1 []) :=
  have hpre : main.bindArgs parseDuration registry3 deadEnvs 0 ["m"] main.State.init
      = .ok boundM := by
    have hsplit : Go.SplitN "m" ',' 3 = ["m"] := by decide
    simp only [main.bindArgs, main.processArg, hsplit]
    rfl
  ⟨hpre, C11_startup_all_or_nothing parseDuration registry3 deadEnvs ["m"] "bad,1s,x" ["m"]
    boundM hpre
    (Or.inr (Or.inl
      ⟨{ New := fun _ _ g => some (.error "no such device", g)
         DefaultInterval := 1000000000
         Type_ := ["# TYPE bad gauge"]
         Help := ["# HELP bad Never built."]
         Description := "A source that cannot be built." },
       ["# TYPE m gauge", "# HELP m A constant.", "# TYPE bad gauge", "# HELP bad Never built."],
       "no such device", Globals.init, rfl, by decide, rfl⟩))⟩

/-- What a successful `processArg` did, in terms of the argument. -/
theorem processArg_ok (pd : String → Except String Int)
    (reg : String → Option sensor.CollectorEntry) (e1 e2 : Env) (arg : String)
    (st st1 : main.State) (sc : main.Scraper)
    (h : main.processArg pd reg e1 e2 arg st = some (.ok sc, st1)) :
    ∃ entry texts g1 g2, reg (Claimed.typeName arg) = some entry ∧
      main.addSupportTexts entry.Help 0 entry.Type_ st.supportTexts = some texts ∧
      entry.New ((Go.SplitN arg ',' 3)[2]?.getD "") e1 st.pkg = some (.ok sc.Collector, g1) ∧
      sc.Collector.Scrape e2 g1 = some ((sc.Value, none), g2) ∧
      sc.Type_ = Claimed.typeName arg ∧
      st1 = { st with supportTexts := texts, pkg := g2 } := by
  rw [processArg_eq_bindSensor] at h
  exact bindSensor_ok reg e1 e2 _ _ _ st st1 sc h

/-- The first step of the loop over the arguments when `processArg` succeeds. -/
theorem bindArgs_cons_ok (pd : String → Except String Int)
    (reg : String → Option sensor.CollectorEntry) (envs : Nat → Env × Env)
    (k : Nat) (a : String) (as : List String) (st0 st1 : main.State) (sc : main.Scraper)
    (hp : main.processArg pd reg (envs k).1 (envs k).2 a st0 = some (.ok sc, st1)) :
    main.bindArgs pd reg envs k (a :: as) st0
      = main.bindArgs pd reg envs (k + 1) as
          { st1 with scrapers := st1.scrapers ++ [sc] } := by
  simp only [main.bindArgs, hp]

/-- The scrapers appended by the loop over the arguments: one for each argument, in
order, each with the type name of its argument, the collector its factory returned in
the state reached so far, and the value its first scrape returned. -/
theorem bindArgs_scrapers (pd : String → Except String Int)
    (reg : String → Option sensor.CollectorEntry) (envs : Nat → Env × Env)
    (args : List String) (k : Nat) (st0 st : main.State)
    (h : main.bindArgs pd reg envs k args st0 = .ok st) :
    ∃ new, st.scrapers = st0.scrapers ++ new ∧ new.length = args.length ∧
      ∀ i a, args[i]? = some a → ∃ sc st_i entry g1 g2,
        new[i]? = some sc ∧ sc.Type_ = Claimed.typeName a ∧
        main.bindArgs pd reg envs k (args.take i) st0 = .ok st_i ∧
        reg (Claimed.typeName a) = some entry ∧
        entry.New ((Go.SplitN a ',' 3)[2]?.getD "") (envs (k + i)).1 st_i.pkg
          = some (.ok sc.Collector, g1) ∧
        sc.Collector.Scrape (envs (k + i)).2 g1 = some ((sc.Value, none), g2) := by
  induction args generalizing k st0 with
  | nil =>
    simp only [main.bindArgs, main.Bound.ok.injEq] at h
    exact ⟨[], by simp [h], rfl, by intro i a hi; simp at hi⟩
  | cons a0 as ih =>
    simp only [main.bindArgs] at h
    cases hp : main.processArg pd reg (envs k).1 (envs k).2 a0 st0 with
    | none => simp [hp] at h
    | some r =>
      obtain ⟨r1, st1⟩ := r
      cases r1 with
      | error e => simp [hp] at h
      | ok sc0 =>
        simp only [hp] at h
        obtain ⟨entry0, texts0, g10, g20, hentry0, _, hnew0, hscr0, htype0, hst1⟩ :=
          processArg_ok pd reg _ _ a0 st0 st1 sc0 hp
        obtain ⟨new1, hnew1, hlen1, hall⟩ := ih (k + 1) _ h
        have hscr : st1.scrapers = st0.scrapers := by rw [hst1]
        refine ⟨sc0 :: new1, ?_, by simp [hlen1], ?_⟩
        · rw [hnew1]
          simp [hscr]
        · intro i a hi
          cases i with
          | zero =>
            simp only [List.getElem?_cons_zero, Option.some.injEq] at hi
            subst hi
            exact ⟨sc0, st0, entry0, g10, g20, by simp, htype0, by simp [main.bindArgs],
              hentry0, hnew0, hscr0⟩
          | succ j =>
            simp only [List.getElem?_cons_succ] at hi
            obtain ⟨sc, st_i, entry, g1, g2, hget, htype, hbind, hentry, hnew, hscrape⟩ :=
              hall j a hi
            have hk : k + 1 + j = k + (j + 1) := by omega
            rw [hk] at hnew hscrape
            refine ⟨sc, st_i, entry, g1, g2, by simpa using hget, htype, ?_, hentry, hnew,
              hscrape⟩
            rw [List.take_succ_cons, bindArgs_cons_ok pd reg envs k a0 _ st0 st1 sc0 hp]
            exact hbind

/-- Calling `startSensor` for every scraper in turn starts them all, in order. -/
theorem foldl_startSensor (l running : List main.Scraper) :
    l.foldl (fun running v => main.startSensor v running) running = running ++ l := by
  induction l generalizing running with
  | nil => simp
  | cons a l ih =>
    rw [List.foldl_cons, ih]
    simp [main.startSensor]

/-- C12: when every `processArg` call of the loop of `main` succeeds, `main` goes on to
serve, a task was started for every scraper, the list of scrapers has the length of the
argument list, and the `i`-th scraper has as `Type` the text before the first comma of
the `i`-th argument, as `Collector` what the factory of that registered type returned in
the state the arguments before it led to, and as `Value` what the first scrape of that
collector returned. -/
theorem C12_bound_in_order (pd : String → Except String Int)
    (reg : String → Option sensor.CollectorEntry) (envs : Nat → Env × Env)
    (args : List String) (st : main.State)
    (h : main.bindArgs pd reg envs 0 args main.State.init = .ok st) :
    main.main false pd reg envs args = .serving st st.scrapers ∧
    st.scrapers.length = args.length ∧
    ∀ i a, args[i]? = some a → ∃ sc st_i entry g1 g2,
      st.scrapers[i]? = some sc ∧ sc.Type_ = Claimed.typeName a ∧
      main.bindArgs pd reg envs 0 (args.take i) main.State.init = .ok st_i ∧
      reg (Claimed.typeName a) = some entry ∧
      entry.New ((Go.SplitN a ',' 3)[2]?.getD "") (envs i).1 st_i.pkg
        = some (.ok sc.Collector, g1) ∧
      sc.Collector.Scrape (envs i).2 g1 = some ((sc.Value, none), g2) := by
  obtain ⟨new, hnew, hlen, hall⟩ := bindArgs_scrapers pd reg envs args 0 _ st h
  have hs : st.scrapers = new := by simpa [main.State.init] using hnew
  refine ⟨?_, by rw [hs, hlen], ?_⟩
  · simp only [main.main, h]
    rw [foldl_startSensor]
    simp
  · intro i a hi
    obtain ⟨sc, st_i, entry, g1, g2, hget, htype, hbind, hentry, hnw, hscrape⟩ := hall i a hi
    rw [Nat.zero_add] at hnw hscrape
    exact ⟨sc, st_i, entry, g1, g2, by rw [hs]; exact hget, htype, hbind, hentry, hnw, hscrape⟩

/-- The arguments `m` and `m,2s` are both bound. -/
theorem bindArgs_m_m2s :
    main.bindArgs parseDuration registry deadEnvs 0 ["m", "m,2s"] main.State.init
      = .ok boundMM := by
  have h1 : Go.SplitN "m" ',' 3 = ["m"] := by decide
  have h2 : Go.SplitN "m,2s" ',' 3 = ["m", "2s"] := by decide
  simp only [main.bindArgs, main.processArg, h1, h2]
  rfl

/-- Witness of C12: the arguments `m` and `m,2s` give two scrapers and two started tasks. -/
theorem C12_bound_in_order_witness :
    main.bindArgs parseDuration registry deadEnvs 0 ["m", "m,2s"] main.State.init
      = .ok boundMM ∧
    main.main false parseDuration registry deadEnvs ["m", "m,2s"]
      = .serving boundMM boundMM.scrapers ∧
    boundMM.scrapers.length = ["m", "m,2s"].length :=
  ⟨bindArgs_m_m2s,
    (C12_bound_in_order parseDuration registry deadEnvs ["m", "m,2s"] boundMM bindArgs_m_m2s).1,
    (C12_bound_in_order parseDuration registry deadEnvs ["m", "m,2s"] boundMM
      bindArgs_m_m2s).2.1⟩

/-- Membership in the map after an assignment. -/
theorem mem_mapSet (m : List String) (k x : String) :
    x ∈ main.mapSet m k ↔ x ∈ m ∨ x = k := by
  unfold main.mapSet
  by_cases hk : k ∈ m
  · simp only [hk, if_true]
    constructor
    · intro h; exact Or.inl h
    · intro h
      rcases h with h | h
      · exact h
      · rw [h]; exact hk
  · simp [hk]

/-- An assignment keeps the keys of the map free of repetition. -/
theorem mapSet_nodup (m : List String) (k : String) (h : m.Nodup) :
    (main.mapSet m k).Nodup := by
  unfold main.mapSet
  by_cases hk : k ∈ m
  · simp [hk, h]
  · simp only [hk, if_false]
    rw [List.nodup_append]
    refine ⟨h, List.nodup_singleton k, ?_⟩
    intro x hx hy
    simp only [List.mem_singleton] at hy
    exact hk (hy ▸ hx)

/-- The loop over `Type` keeps the keys free of repetition, keeps every key, and stores
every `Type` line and the `Help` line of the same index. -/
theorem addSupportTexts_spec (help ts : List String) (k : Nat) (m m1 : List String)
    (h : main.addSupportTexts help k ts m = some m1) :
    (m.Nodup → m1.Nodup) ∧ (∀ x, x ∈ m → x ∈ m1) ∧ (∀ t, t ∈ ts → t ∈ m1) ∧
    (∀ j line, j < ts.length → help[k + j]? = some line → line ∈ m1) := by
  induction ts generalizing k m with
  | nil =>
    simp only [main.addSupportTexts, Option.some.injEq] at h
    subst h
    exact ⟨fun hn => hn, fun x hx => hx, by simp, by simp⟩
  | cons t ts ih =>
    unfold main.addSupportTexts at h
    cases hk : help[k]? with
    | none => simp [hk] at h
    | some hl =>
      simp only [hk] at h
      obtain ⟨hnd, hmem, hts, hhelp⟩ := ih (k + 1) _ h
      refine ⟨?_, ?_, ?_, ?_⟩
      · intro hn
        exact hnd (mapSet_nodup _ _ (mapSet_nodup _ _ hn))
      · intro x hx
        exact hmem x ((mem_mapSet _ _ _).mpr (Or.inl ((mem_mapSet _ _ _).mpr (Or.inl hx))))
      · intro x hx
        rcases List.mem_cons.mp hx with hx | hx
        · exact hmem x ((mem_mapSet _ _ _).mpr (Or.inl ((mem_mapSet _ _ _).mpr (Or.inr hx))))
        · exact hts x hx
      · intro j line hj hline
        cases j with
        | zero =>
          rw [Nat.add_zero, hk] at hline
          simp only [Option.some.injEq] at hline
          exact hmem line ((mem_mapSet _ _ _).mpr (Or.inr hline.symm))
        | succ j =>
          have hj1 : j < ts.length := by simpa using hj
          have hidx : k + (j + 1) = k + 1 + j := by omega
          rw [hidx] at hline
          exact hhelp j line hj1 hline

/-- The metadata set after the loop over the arguments: its keys stay free of
repetition, no key is lost, and for every bound argument every `Type` line of its
registered type and the `Help` line of the same index are among the keys. -/
theorem bindArgs_supportTexts (pd : String → Except String Int)
    (reg : String → Option sensor.CollectorEntry) (envs : Nat → Env × Env)
    (args : List String) (k : Nat) (st0 st : main.State)
    (h : main.bindArgs pd reg envs k args st0 = .ok st) :
    (st0.supportTexts.Nodup → st.supportTexts.Nodup) ∧
    (∀ x, x ∈ st0.supportTexts → x ∈ st.supportTexts) ∧
    ∀ (i : Nat) (a : String) (entry : sensor.CollectorEntry), args[i]? = some a →
      reg (Claimed.typeName a) = some entry →
      (∀ t, t ∈ entry.Type_ → t ∈ st.supportTexts) ∧
      (∀ j line, j < entry.Type_.length → entry.Help[j]? = some line →
        line ∈ st.supportTexts) := by
  induction args generalizing k st0 with
  | nil =>
    simp only [main.bindArgs, main.Bound.ok.injEq] at h
    subst h
    exact ⟨fun hn => hn, fun x hx => hx, by intro i a entry hi; simp at hi⟩
  | cons a0 as ih =>
    simp only [main.bindArgs] at h
    cases hp : main.processArg pd reg (envs k).1 (envs k).2 a0 st0 with
    | none => simp [hp] at h
    | some r =>
      obtain ⟨r1, st1⟩ := r
      cases r1 with
      | error e => simp [hp] at h
      | ok sc0 =>
        simp only [hp] at h
        obtain ⟨entry0, texts0, g10, g20, hentry0, htexts0, _, _, _, hst1⟩ :=
          processArg_ok pd reg _ _ a0 st0 st1 sc0 hp
        obtain ⟨hnd0, hmem0, hty0, hhelp0⟩ :=
          addSupportTexts_spec entry0.Help entry0.Type_ 0 st0.supportTexts texts0 htexts0
        obtain ⟨hnd, hmem, hall⟩ := ih (k + 1) _ h
        have htx : st1.supportTexts = texts0 := by rw [hst1]
        simp only [htx] at hnd hmem
        refine ⟨fun hn => hnd (hnd0 hn), fun x hx => hmem x (hmem0 x hx), ?_⟩
        intro i a entry hi hentry
        cases i with
        | zero =>
          simp only [List.getElem?_cons_zero, Option.some.injEq] at hi
          subst hi
          rw [hentry0] at hentry
          simp only [Option.some.injEq] at hentry
          subst hentry
          refine ⟨fun t ht => hmem t (hty0 t ht), ?_⟩
          intro j line hj hline
          apply hmem
          apply hhelp0 j line hj
          rw [Nat.zero_add]
          exact hline
        | succ i1 =>
          simp only [List.getElem?_cons_succ] at hi
          exact hall i1 a entry hi hentry

/-- C13 (counterexample): the source type `x` registers one `TYPE` line and two `HELP`
lines; it is bound twice, both bindings succeed, and its second `HELP` line is not among
the keys of the map: it occurs zero times, not once, among the metadata lines written,
in whatever order the map is visited. -/
theorem C13_counterexample :
    (∃ entry, registryExtraHelp "x" = some entry ∧ "# HELP x Second." ∈ entry.Help) ∧
    main.bindArgs parseDuration registryExtraHelp deadEnvs 0 ["x", "x"] main.State.init
      = .ok boundXX ∧
    main.RangeOrder boundXX.supportTexts ["# TYPE x gauge", "# HELP x First."] ∧
    ["# TYPE x gauge", "# HELP x First."].count "# HELP x Second." = 0 ∧
    ∀ order, main.RangeOrder boundXX.supportTexts order →
      order.count "# HELP x Second." ≠ 1 := by
  refine ⟨⟨_, rfl, by decide⟩, ?_, List.Perm.refl _, by decide, ?_⟩
  · have h1 : Go.SplitN "x" ',' 3 = ["x"] := by decide
    simp only [main.bindArgs, main.processArg, h1]
    rfl
  · intro order horder
    unfold main.RangeOrder at horder
    rw [List.Perm.count_eq horder]
    decide

/-- C13 (amended): after any loop of `main` in which every `processArg` call succeeded,
for every bound argument, once or several times of the same type, each `TYPE` line of
its registered type and each `HELP` line at the index of a `TYPE` line occurs exactly
once among the metadata lines `metricsHandler` writes, in whatever order the map is
visited; these lines are the first part of the body. -/
theorem C13_paired_lines_once (pd : String → Except String Int)
    (reg : String → Option sensor.CollectorEntry) (envs : Nat → Env × Env)
    (args : List String) (st : main.State) (i : Nat) (a : String)
    (entry : sensor.CollectorEntry) (order : List String) (line : String)
    (hb : main.bindArgs pd reg envs 0 args main.State.init = .ok st)
    (ha : args[i]? = some a)
    (hentry : reg (Claimed.typeName a) = some entry)
    (horder : main.RangeOrder st.supportTexts order)
    (hline : line ∈ entry.Type_ ∨
      ∃ j, j < entry.Type_.length ∧ entry.Help[j]? = some line) :
    order.count line = 1 ∧
    (main.metricsHandler order st).1
      = Claimed.lines order ++ Claimed.lines (st.scrapers.map (fun s => s.Value)) := by
  obtain ⟨hnd, _, hall⟩ := bindArgs_supportTexts pd reg envs args 0 _ st hb
  have hnodup : st.supportTexts.Nodup := hnd (by simp [main.State.init])
  obtain ⟨hty, hhelp⟩ := hall i a entry ha hentry
  have hmem : line ∈ st.supportTexts := by
    rcases hline with hl | ⟨j, hj, hget⟩
    · exact hty line hl
    · exact hhelp j line hj hget
  refine ⟨?_, metricsHandler_body order st⟩
  unfold main.RangeOrder at horder
  rw [List.Perm.count_eq horder]
  exact List.count_eq_one_of_mem hnodup hmem

/-- Witness of the amended C13: the type `m` is bound twice, and the `HELP` line paired
with its `TYPE` line is written once. -/
theorem C13_paired_lines_once_witness :
    main.bindArgs parseDuration registry deadEnvs 0 ["m", "m,2s"] main.State.init
      = .ok boundMM ∧
    ["m", "m,2s"][1]? = some "m,2s" ∧
    main.RangeOrder boundMM.supportTexts ["# HELP m A constant.", "# TYPE m gauge"] ∧
    ["# HELP m A constant.", "# TYPE m gauge"].count "# HELP m A constant." = 1 ∧
    (main.metricsHandler ["# HELP m A constant.", "# TYPE m gauge"] boundMM).1
      = Claimed.lines ["# HELP m A constant.", "# TYPE m gauge"]
        ++ Claimed.lines (boundMM.scrapers.map (fun s => s.Value)) :=
  ⟨bindArgs_m_m2s, rfl, List.Perm.swap _ _ _,
    C13_paired_lines_once parseDuration registry deadEnvs ["m", "m,2s"] boundMM 1 "m,2s"
      { New := fun _ _ g => some (.ok (constCollector "m\x7b\x7d 1.0\n"), g)
        DefaultInterval := 1000000000
        Type_ := ["# TYPE m gauge"]
        Help := ["# HELP m A constant."]
        Description := "A constant source." }
      ["# HELP m A constant.", "# TYPE m gauge"] "# HELP m A constant."
      bindArgs_m_m2s rfl rfl (List.Perm.swap _ _ _) (Or.inr ⟨0, by decide, rfl⟩)⟩

/-- The interval of a scraper returned by `processArg`, in terms of the argument. -/
theorem processArg_interval (pd : String → Except String Int)
    (reg : String → Option sensor.CollectorEntry) (e1 e2 : Env) (arg : String)
    (st st1 : main.State) (sc : main.Scraper)
    (h : main.processArg pd reg e1 e2 arg st = some (.ok sc, st1)) :
    ∃ entry, reg (Claimed.typeName arg) = some entry ∧
      sc.Interval = Claimed.intervalNonZero pd entry (Go.SplitN arg ',' 3)[1]? := by
  rw [processArg_eq_bindSensor] at h
  obtain ⟨entry, hentry, hiv⟩ := bindSensor_interval reg e1 e2 _ _ _ st st1 sc h
  refine ⟨entry, hentry, ?_⟩
  rw [hiv]
  cases hf : (Go.SplitN arg ',' 3)[1]? with
  | none => simp [Claimed.intervalNonZero]
  | some f =>
    simp only [Claimed.intervalNonZero, main.parseInterval]
    cases pd f <;> simp

/-- The interval a source falls back to is never zero, and it is positive when the
suggested default is not negative. -/
theorem fallbackInterval_sign (entry : sensor.CollectorEntry) :
    Claimed.fallbackInterval entry ≠ 0 ∧
    (0 ≤ entry.DefaultInterval → 0 < Claimed.fallbackInterval entry) := by
  unfold Claimed.fallbackInterval main.defaultInterval
  by_cases hd : entry.DefaultInterval = 0
  · simp [hd]
  · simp only [ne_eq, hd, not_false_eq_true, if_true]
    exact ⟨trivial, fun h => lt_of_le_of_ne h (Ne.symm hd)⟩

/-- C14 (counterexample): with the interval field `-1s` the task bound for the source
`m`, whose suggested interval is one second, has the interval of minus one second, which
is not strictly positive, and the ticker created from it never fires. -/
theorem C14_counterexample :
    (∀ name entry, registry name = some entry → 0 ≤ entry.DefaultInterval) ∧
    parseDuration "-1s" = .ok (-1000000000) ∧
    ∃ sc st1,
      main.processArg parseDuration registry deadEnv deadEnv "m,-1s" main.State.init
        = some (.ok sc, st1) ∧
      sc.Interval = -1000000000 ∧ ¬ (0 < sc.Interval) ∧ main.tickerFires sc = false := by
  refine ⟨?_, rfl, { constScraper with Interval := -1000000000 },
    { main.State.init with supportTexts := ["# TYPE m gauge", "# HELP m A constant."] },
    ?_, rfl, by decide, by decide⟩
  · intro name entry hreg
    unfold registry at hreg
    split at hreg
    · simp only [Option.some.injEq] at hreg
      rw [← hreg]
      decide
    · simp at hreg
  · have hsplit : Go.SplitN "m,-1s" ',' 3 = ["m", "-1s"] := by decide
    simp only [main.processArg, hsplit]
    rfl

/-- The sign of the interval of a scraper returned by `processArg`: it is never zero;
when the suggested default intervals of the registry are not negative and the interval
field does not parse as a negative duration it is strictly positive and the ticker
fires; when the field parses as a negative duration it is that duration and the ticker
never fires. -/
theorem processArg_interval_sign (pd : String → Except String Int)
    (reg : String → Option sensor.CollectorEntry) (e1 e2 : Env) (arg : String)
    (st st1 : main.State) (sc : main.Scraper)
    (h : main.processArg pd reg e1 e2 arg st = some (.ok sc, st1))
    (hreg : ∀ name entry, reg name = some entry → 0 ≤ entry.DefaultInterval) :
    sc.Interval ≠ 0 ∧
    ((∀ f d, (Go.SplitN arg ',' 3)[1]? = some f → pd f = .ok d → 0 ≤ d) →
      0 < sc.Interval ∧ main.tickerFires sc = true) ∧
    (∀ f d, (Go.SplitN arg ',' 3)[1]? = some f → pd f = .ok d → d < 0 →
      sc.Interval = d ∧ main.tickerFires sc = false) := by
  obtain ⟨entry, hentry, hiv⟩ := processArg_interval pd reg e1 e2 arg st st1 sc h
  obtain ⟨hfb0, hfbpos⟩ := fallbackInterval_sign entry
  have hfb : 0 < Claimed.fallbackInterval entry := hfbpos (hreg _ entry hentry)
  have hfires : ∀ s : main.Scraper, 0 < s.Interval → main.tickerFires s = true := by
    intro s hs
    simp [main.tickerFires, Go.TickDelivers, hs]
  refine ⟨?_, ?_, ?_⟩
  · rw [hiv]
    unfold Claimed.intervalNonZero
    cases (Go.SplitN arg ',' 3)[1]? with
    | none => exact hfb0
    | some f =>
      simp only []
      cases pd f with
      | error e => exact hfb0
      | ok d =>
        simp only []
        by_cases hd : d = 0
        · simp [hd, hfb0]
        · simp [hd]
  · intro hnonneg
    have hpos : 0 < sc.Interval := by
      rw [hiv]
      unfold Claimed.intervalNonZero
      cases hf : (Go.SplitN arg ',' 3)[1]? with
      | none => exact hfb
      | some f =>
        simp only []
        cases hp : pd f with
        | error e => exact hfb
        | ok d =>
          simp only []
          by_cases hd : d = 0
          · simp [hd, hfb]
          · simp only [ne_eq, hd, not_false_eq_true, if_true]
            exact lt_of_le_of_ne (hnonneg f d hf hp) (Ne.symm hd)
    exact ⟨hpos, hfires sc hpos⟩
  · intro f d hf hp hneg
    have hd : d ≠ 0 := ne_of_lt hneg
    have hval : sc.Interval = d := by
      rw [hiv]
      simp [Claimed.intervalNonZero, hf, hp, hd]
    refine ⟨hval, ?_⟩
    simp only [main.tickerFires, Go.TickDelivers, hval]
    simp [not_lt.mpr (le_of_lt hneg)]

/-- The sensors of the repository register as many `HELP` lines as `TYPE` lines. -/
theorem sensors_lines_paired {F : Type} (fl : Go.Float64Ops F) :
    sensor_coretemp.sensorsHelp.length = sensor_coretemp.sensorsType.length ∧
    sensor_example.sensorsHelp.length = sensor_example.sensorsType.length ∧
    (sensor_hddtemp.entry fl).Help.length = (sensor_hddtemp.entry fl).Type_.length ∧
    sensor_log.sensorsHelp.length = sensor_log.sensorsType.length ∧
    sensor_upsc.sensorsHelp.length = sensor_upsc.sensorsType.length :=
  ⟨rfl, rfl, rfl, rfl, rfl⟩

/-- C14 (amended): every scraper returned by a successful `processArg` has a strictly
positive interval, for every argument string whose interval field does not parse as a
negative duration and every registry whose suggested default intervals are not
negative; so the ticker created from it in `startSensor` fires. -/
theorem C14_interval_positive (pd : String → Except String Int)
    (reg : String → Option sensor.CollectorEntry) (e1 e2 : Env) (arg : String)
    (st st1 : main.State) (sc : main.Scraper)
    (h : main.processArg pd reg e1 e2 arg st = some (.ok sc, st1))
    (hreg : ∀ name entry, reg name = some entry → 0 ≤ entry.DefaultInterval)
    (hfield : ∀ f d, (Go.SplitN arg ',' 3)[1]? = some f → pd f = .ok d → 0 ≤ d) :
    0 < sc.Interval ∧ main.tickerFires sc = true :=
  (processArg_interval_sign pd reg e1 e2 arg st st1 sc h hreg).2.1 hfield

/-- Witness of the amended C14: the argument `m,2s` binds a task of interval two
seconds. -/
theorem C14_interval_positive_witness :
    main.processArg parseDuration registry deadEnv deadEnv "m,2s" main.State.init
      = some (.ok { constScraper with Interval := 2000000000 },
          { main.State.init with supportTexts := ["# TYPE m gauge", "# HELP m A constant."] }) ∧
    (∀ name entry, registry name = some entry → 0 ≤ entry.DefaultInterval) ∧
    (∀ f d, (Go.SplitN "m,2s" ',' 3)[1]? = some f → parseDuration f = .ok d → 0 ≤ d) ∧
    0 < ({ constScraper with Interval := 2000000000 } : main.Scraper).Interval ∧
    main.tickerFires { constScraper with Interval := 2000000000 } = true :=
  have hsplit : Go.SplitN "m,2s" ',' 3 = ["m", "2s"] := by decide
  have h : main.processArg parseDuration registry deadEnv deadEnv "m,2s" main.State.init
      = some (.ok { constScraper with Interval := 2000000000 },
          { main.State.init with
            supportTexts := ["# TYPE m gauge", "# HELP m A constant."] }) := by
    simp only [main.processArg, hsplit]
    rfl
  have hreg : ∀ name entry, registry name = some entry → 0 ≤ entry.DefaultInterval := by
    intro name entry hr
    unfold registry at hr
    split at hr
    · simp only [Option.some.injEq] at hr
      rw [← hr]
      decide
    · simp at hr
  have hfield : ∀ f d, (Go.SplitN "m,2s" ',' 3)[1]? = some f → parseDuration f = .ok d →
      0 ≤ d := by
    intro f d hf hp
    rw [hsplit] at hf
    simp only [List.getElem?_cons_succ, List.getElem?_cons_zero, Option.some.injEq] at hf
    subst hf
    have h2 : parseDuration "2s" = .ok 2000000000 := rfl
    rw [h2] at hp
    simp only [Except.ok.injEq] at hp
    rw [← hp]
    decide
  ⟨h, hreg, hfield,
    C14_interval_positive parseDuration registry deadEnv deadEnv "m,2s" main.State.init _ _
      h hreg hfield⟩
